import Mathlib

/-!
# Verification of the Charity_Advisor backend selection core

Shallow embedding of `backend/app.py` and `backend/catalog.py`.

Modelling conventions:
* Python `Optional[str]` dictionary fields become `Option String`; Python
  truthiness of such a value (`None` and `""` are falsy) is `pyTruthy`.
* The SQLite store and the Every.org HTTP service are external collaborators:
  they are passed in as oracle functions.  Queries issued against the store are
  logged so that "no query was issued" is expressible.
* The process-wide `_EVERY_CACHE` dictionary is threaded explicitly as a value.
* `random.Random(seed)` is modelled by a faithful MT19937 implementation
  (CPython's `_randommodule.c` generator with `init_by_array` seeding,
  `getrandbits`, `_randbelow` rejection sampling and `list.shuffle`).
* Machine words are `Nat` masked to 32 bits where CPython wraps.
-/

/-- Python truthiness of an optional string: `None` and `""` are falsy. -/
def pyTruthy (o : Option String) : Bool :=
  match o with
  | none => false
  | some s => s ≠ ""

/-- Python `a or b` on optional strings. -/
def pyOr (a b : Option String) : Option String :=
  if pyTruthy a then a else b

/-- Python `f"{x}"` for an optional string (prints `None` for `None`). -/
def pyStr (o : Option String) : String :=
  o.getD "None"

/-- Python `str.strip()` (whitespace both ends), on the character list so the
kernel can evaluate it. -/
def pyStrip (s : String) : String :=
  ⟨(((s.data.dropWhile Char.isWhitespace).reverse.dropWhile Char.isWhitespace).reverse)⟩

/-- Python `str.lower()` (ASCII case folding, which covers every string the
backend compares). -/
def pyLower (s : String) : String :=
  ⟨s.data.map Char.toLower⟩

/-- Python `str.upper()` (ASCII case folding). -/
def pyUpper (s : String) : String :=
  ⟨s.data.map Char.toUpper⟩

/-- Python `len` on a string (number of characters). -/
def pyLen (s : String) : Nat :=
  s.data.length

/-- A row of the `charities` SQLite table, as declared by `catalog.CharityRow`. -/
structure CharityRow where
  ein : String
  name : String
  city : Option String
  state : Option String
  ntee_code : String
  ntee_major : String
deriving DecidableEq

/-- The normalized charity dictionary built in `group_charities_by_decile` /
`get_daily_featured_pool` and mutated by `enrich_charities_with_every`. -/
structure Charity where
  name : Option String
  ein : Option String
  profileUrl : Option String
  websiteUrl : Option String
  nteeCode : Option String
  location : Option String
  description : Option String
deriving DecidableEq

/-- The nested `data.nonprofit` object of an Every.org response, restricted to
the keys the backend reads. -/
structure Detail where
  profileUrl : Option String
  profile : Option String
  url : Option String
  websiteUrl : Option String
  website : Option String
  description : Option String
  mission : Option String
  location : Option String
  locationName : Option String
  nteeCode : Option String
deriving DecidableEq

/-- An HTTP response from Every.org as observed by `fetch_every_nonprofit_detail`:
a status code and a body.  `body = none` models a `ValueError` from `resp.json()`;
`body = some none` models a payload whose `data.nonprofit` is missing, empty, or
not a dict; `body = some (some d)` models a non-empty nonprofit object. -/
structure EveryResp where
  status : Nat
  body : Option (Option Detail)

/-- A SQL query issued by `catalog._execute_query`, identified by its parameters:
the decile list of the `IN` clause, the optional `state = ?` filter, and the
`LIMIT` argument. -/
structure Query where
  deciles : List String
  state : Option String
  limit : Int
deriving DecidableEq

/-! ## `app.normalize_state` -/

/-- Python `str.isalpha()`: non-empty and every character alphabetic. -/
def pyIsAlpha (s : String) : Bool :=
  s ≠ "" && s.data.all Char.isAlpha

/-- `app.normalize_state`: normalize the survey location into a state code or
`"any"`. -/
def normalize_state (location : String) : String :=
  let loc := pyStrip location
  if loc = "" then "any"
  else if pyLower loc = "any" then "any"
  else if pyLen loc = 2 && pyIsAlpha loc then pyUpper loc
  else "any"

/-- **C10.** Any location that strips to something non-empty, not `"any"`
case-insensitively, and not exactly two alphabetic characters is normalized to
`"any"`: the region filter is silently dropped. -/
theorem normalize_state_invalid_gives_any (location : String)
    (h1 : pyStrip location ≠ "")
    (h2 : pyLower (pyStrip location) ≠ "any")
    (h3 : ¬(pyLen (pyStrip location) = 2 ∧ pyIsAlpha (pyStrip location) = true)) :
    normalize_state location = "any" := by
  unfold normalize_state
  simp only [if_neg h1, if_neg h2]
  have : (pyLen (pyStrip location) = 2 && pyIsAlpha (pyStrip location)) = false := by
    rcases Bool.eq_false_or_eq_true (pyIsAlpha (pyStrip location)) with hb | hb
    · have : ¬ pyLen (pyStrip location) = 2 := fun hl => h3 ⟨hl, hb⟩
      simp [this]
    · simp [hb]
  simp [this]

/-- Witness for C10 at the concrete inputs `"California"` and `"NY2"`. -/
theorem normalize_state_invalid_gives_any_witness :
    normalize_state "California" = "any" ∧ normalize_state "NY2" = "any" :=
  ⟨normalize_state_invalid_gives_any "California" (by decide) (by decide) (by decide),
   normalize_state_invalid_gives_any "NY2" (by decide) (by decide) (by decide)⟩

/-! ## The interest-code to NTEE-decile mapping table (`app.GENERIC_TO_NTEE`) -/

def GENERIC_TO_NTEE : List (String × List String) := [
  ("A0", ["A50", "A51", "A52", "A54", "A56", "A57", "A80"]),
  ("A1", ["A60", "A61", "A62", "A63", "A65", "A68", "A69", "A6A", "A6B", "A6C", "A6E"]),
  ("A2", ["A30", "A31", "A32", "A33", "A34"]),
  ("A3", ["A20", "A23", "A25", "A40", "A70", "A84", "A99"]),
  ("A4", ["A01", "A02", "A03", "A05", "A11", "A12", "A19", "A26", "A90"]),
  ("B0", ["B20", "B21", "B24", "B25", "B28"]),
  ("B1", ["B30", "B40", "B41", "B42", "B43", "B50", "B60"]),
  ("B2", ["B70", "B80", "B82", "B83", "B84"]),
  ("B3", ["B90", "B92", "B94", "B99"]),
  ("B4", ["B01", "B02", "B03", "B05", "B11", "B12", "B19"]),
  ("X0", ["X20", "X21", "X22", "X30", "X40", "X50", "X70"]),
  ("X1", ["X80", "X81", "X82", "X83", "X84"]),
  ("X2", ["X90", "X99"]),
  ("X3", ["X01", "X02", "X03", "X05", "X11", "X12"]),
  ("E0", ["E20", "E21", "E22", "E24"]),
  ("E1", ["E30", "E31", "E32", "E40", "E42"]),
  ("E2", ["E90", "E91", "E92"]),
  ("E3", ["E50", "E60", "E61", "E62", "E65", "E70", "E80", "E86", "E99"]),
  ("E4", ["E01", "E02", "E03", "E05", "E11", "E12", "E19"]),
  ("F0", ["F20", "F21", "F22", "F50", "F52", "F53", "F54"]),
  ("F1", ["F30", "F31", "F32", "F33", "F70", "F80", "F99"]),
  ("F2", ["F40", "F42", "F60"]),
  ("F3", ["F01", "F02", "F03", "F05", "F11", "F12", "F19"]),
  ("G0", ["G40", "G41", "G42", "G43", "G44", "G45", "G48", "G50", "G51", "G54", "G60", "G61", "G70"]),
  ("G1", ["G20", "G25", "G30", "G80", "G81", "G83", "G84"]),
  ("G2", ["G90", "G92", "G94", "G96", "G98", "G9B", "G99"]),
  ("G3", ["G11", "G12", "G19"]),
  ("G4", ["G01", "G02", "G03", "G05"]),
  ("H0", ["H20", "H25", "H30", "H80", "H81", "H83", "H84"]),
  ("H1", ["H40", "H41", "H42", "H43", "H44", "H45", "H48", "H50", "H51", "H54", "H60", "H61", "H70"]),
  ("H2", ["H90", "H92", "H94", "H96", "H98", "H9B", "H99"]),
  ("H3", ["H01", "H02", "H03", "H05", "H11", "H12", "H19"]),
  ("C0", ["C20", "C27", "C35"]),
  ("C1", ["C30", "C32", "C34", "C36"]),
  ("C2", ["C40", "C41", "C42", "C50", "C60", "C99"]),
  ("C3", ["C01", "C02", "C03", "C05", "C11", "C12", "C19"]),
  ("D0", ["D20", "D40", "D60", "D61"]),
  ("D1", ["D30", "D31", "D32", "D33", "D34"]),
  ("D2", ["D50", "D99"]),
  ("D3", ["D01", "D02", "D03", "D05", "D11", "D12", "D19"]),
  ("I0", ["I20", "I21", "I23", "I70", "I71", "I72", "I73"]),
  ("I1", ["I30", "I31", "I40", "I43", "I44"]),
  ("I2", ["I50", "I51", "I60"]),
  ("I3", ["I80", "I83", "I99"]),
  ("I4", ["I01", "I02", "I03", "I05", "I11", "I12", "I19"]),
  ("J0", ["J20", "J21", "J22", "J99"]),
  ("J1", ["J30", "J32", "J33"]),
  ("J2", ["J03", "J40"]),
  ("J3", ["J01", "J02", "J05", "J11", "J12", "J19"]),
  ("K0", ["K30", "K31", "K34", "K35", "K36"]),
  ("K1", ["K20", "K25", "K26", "K28"]),
  ("K2", ["K40", "K50", "K99"]),
  ("K3", ["K01", "K02", "K03", "K05", "K11", "K12", "K19"]),
  ("L0", ["L20", "L21", "L22", "L25"]),
  ("L1", ["L40", "L41"]),
  ("L2", ["L30", "L50", "L80", "L81", "L82", "L99"]),
  ("L3", ["L01", "L02", "L03", "L05", "L11", "L12", "L19"]),
  ("M0", ["M20", "M23", "M24", "M99"]),
  ("M1", ["M40", "M41", "M42"]),
  ("M2", ["M01", "M02", "M03", "M05", "M11", "M12", "M19"]),
  ("N0", ["N20", "N30", "N31", "N32"]),
  ("N1", ["N50", "N60", "N61", "N62", "N63", "N64", "N65", "N66", "N67", "N68", "N69", "N6A"]),
  ("N2", ["N70", "N71", "N72"]),
  ("N3", ["N01", "N02", "N03", "N05", "N11", "N12", "N19"]),
  ("O0", ["O20", "O21", "O22", "O23"]),
  ("O1", ["O30", "O31", "O40", "O41", "O42", "O43"]),
  ("O2", ["O50", "O51", "O52", "O53", "O54", "O55", "O99"]),
  ("O3", ["O01", "O02", "O03", "O05", "O11", "O12", "O19"]),
  ("P0", ["P30", "P31", "P32", "P33", "P40", "P42", "P43", "P44", "P45", "P46"]),
  ("P1", ["P80", "P81", "P82", "P84", "P85", "P86", "P87"]),
  ("P2", ["P58", "P60", "P61", "P62"]),
  ("P3", ["P70", "P72", "P73", "P74", "P75"]),
  ("P4", ["P20", "P21", "P22", "P24", "P26", "P27", "P28", "P29", "P50", "P51", "P52", "P99"]),
  ("P5", ["P01", "P02", "P03", "P05", "P11", "P12", "P19"]),
  ("Q0", ["Q30", "Q31", "Q32", "Q33", "Q70", "Q71"]),
  ("Q1", ["Q20", "Q21", "Q22", "Q23"]),
  ("Q2", ["Q40", "Q41", "Q42", "Q43", "Q99"]),
  ("Q3", ["Q01", "Q02", "Q03", "Q05", "Q11", "Q12", "Q19"]),
  ("R0", ["R20", "R22", "R23", "R24", "R25", "R26", "R30"]),
  ("R1", ["R40", "R60", "R61", "R62", "R63", "R67", "R99"]),
  ("R2", ["R01", "R02", "R03", "R05", "R11", "R12", "R19"]),
  ("S0", ["S20", "S21", "S22"]),
  ("S1", ["S30", "S31", "S32"]),
  ("S2", ["S40", "S41", "S43", "S46", "S47", "S50", "S80", "S81", "S82", "S99"]),
  ("S3", ["S01", "S02", "S03", "S05", "S11", "S12", "S19"]),
  ("T0", ["T20", "T21", "T22", "T23", "T90"]),
  ("T1", ["T30", "T31", "T70"]),
  ("T2", ["T40", "T50", "T99"]),
  ("T3", ["T01", "T02", "T03", "T05", "T11", "T12", "T19"]),
  ("U0", ["U30", "U31", "U33", "U34", "U36"]),
  ("U1", ["U40", "U41", "U42"]),
  ("U2", ["U20", "U21", "U50", "U99"]),
  ("U3", ["U01", "U02", "U03", "U05", "U11", "U12", "U19"]),
  ("V0", ["V20", "V21", "V22", "V23", "V24", "V25", "V26"]),
  ("V1", ["V30", "V31", "V32", "V33", "V34", "V35", "V36", "V37", "V99"]),
  ("V2", ["V01", "V02", "V03", "V05", "V11", "V12", "V19"]),
  ("W0", ["W30", "W40", "W50", "W60", "W99"]),
  ("W1", ["W70", "W71", "W72", "W73"]),
  ("W2", ["W01", "W02", "W03", "W05", "W11", "W12", "W19"]),
  ("Y0", ["Y30", "Y33", "Y34", "Y40"]),
  ("Y1", ["Y20", "Y22", "Y99"]),
  ("Y2", ["Y50", "Y60", "Y70"]),
  ("Y3", ["Y01", "Y02", "Y03", "Y05", "Y11", "Y12", "Y19"])
]

/-- Python `GENERIC_TO_NTEE.get(g)` (dict lookup). -/
def lookupGeneric (g : String) : Option (List String) :=
  (GENERIC_TO_NTEE.find? (fun p => p.1 = g)).map Prod.snd

/-! ## `catalog.py`: store queries with region fallback

The SQLite store is an external collaborator; it is modelled as an oracle
`store : Query -> List CharityRow` giving the rows each SQL query returns, and
`fetch_by_deciles` additionally returns the list of queries it issued (in
order), so that "the unfiltered query is never used" is a statement about the
log. -/

/-- `catalog._normalize_deciles`. -/
def normalize_deciles (deciles : List String) : List String :=
  (deciles.filter (fun d => pyStrip d != "")).map (fun d => pyUpper (pyStrip d))

/-- `catalog._normalize_state`: treat falsy input and `"ANY"` as no filter. -/
def catalog_normalize_state (state : Option String) : Option String :=
  match state with
  | none => none
  | some s =>
    if s = "" then none
    else
      let t := pyUpper (pyStrip s)
      if t = "" \/ t = "ANY" then none else some t

/-- `catalog._rows_to_charities`: rebuild each sqlite row as a `CharityRow`
dict (field-for-field copy). -/
def rowsToCharities (rows : List CharityRow) : List CharityRow :=
  rows.map (fun row =>
    { ein := row.ein, name := row.name, city := row.city, state := row.state,
      ntee_code := row.ntee_code, ntee_major := row.ntee_major })

/-- `catalog.fetch_by_deciles`: query by decile set, preferring the
state-filtered query and falling back to the unfiltered one when it returns no
rows.  Returns the converted rows and the log of issued queries. -/
def fetch_by_deciles (store : Query -> List CharityRow) (deciles : List String)
    (state : Option String) (limit : Int) : List CharityRow × List Query :=
  let cleaned := normalize_deciles deciles
  if cleaned = [] then ([], [])
  else
    match catalog_normalize_state state with
    | some st =>
      let q1 : Query := ⟨cleaned, some st, limit⟩
      let rows := store q1
      if rows ≠ [] then (rowsToCharities rows, [q1])
      else
        let q2 : Query := ⟨cleaned, none, limit⟩
        (rowsToCharities (store q2), [q1, q2])
    | none =>
      let q2 : Query := ⟨cleaned, none, limit⟩
      (rowsToCharities (store q2), [q2])

/-- **C5.** With a non-trivial region filter: if the region-filtered query
returns zero rows, `fetch_by_deciles` re-runs the same query without the region
filter and returns its rows (log `[q1, q2]`); if the region-filtered query is
non-empty, its rows are returned and the unfiltered query is never issued
(log `[q1]`). -/
theorem fetch_by_deciles_region_fallback (store : Query → List CharityRow)
    (deciles : List String) (state : Option String) (limit : Int) (st : String)
    (hcl : normalize_deciles deciles ≠ [])
    (hst : catalog_normalize_state state = some st) :
    (store ⟨normalize_deciles deciles, some st, limit⟩ = [] →
      fetch_by_deciles store deciles state limit
        = (rowsToCharities (store ⟨normalize_deciles deciles, none, limit⟩),
            [⟨normalize_deciles deciles, some st, limit⟩,
             ⟨normalize_deciles deciles, none, limit⟩])) ∧
    (store ⟨normalize_deciles deciles, some st, limit⟩ ≠ [] →
      fetch_by_deciles store deciles state limit
        = (rowsToCharities (store ⟨normalize_deciles deciles, some st, limit⟩),
            [⟨normalize_deciles deciles, some st, limit⟩])) := by
  constructor
  · intro hempty
    unfold fetch_by_deciles
    simp only [if_neg hcl, hst, hempty]
    simp
  · intro hne
    unfold fetch_by_deciles
    simp only [if_neg hcl, hst]
    simp [if_pos hne, hne]

/-- A store for the C5 witness: region "ZZ" matches nothing, but the
unfiltered query returns one row. -/
def c5Store : Query → List CharityRow :=
  fun q =>
    match q.state with
    | some _ => []
    | none => [{ ein := "11-1111111", name := "Xavier Fund", city := some "Reno",
                 state := some "NV", ntee_code := "X20", ntee_major := "X" }]

/-- Witness for C5: with no row matching region "ZZ", the unfiltered rows are
returned and both queries appear in the log. -/
theorem fetch_by_deciles_region_fallback_witness :
    fetch_by_deciles c5Store ["X20"] (some "ZZ") 5
      = (rowsToCharities (c5Store ⟨["X20"], none, 5⟩),
          [⟨["X20"], some "ZZ", 5⟩, ⟨["X20"], none, 5⟩]) :=
  (fetch_by_deciles_region_fallback c5Store ["X20"] (some "ZZ") 5 "ZZ"
    (by decide) (by decide)).1 (by decide)

/-! ## CPython `random.Random(seed)`: the MT19937 generator

Faithful model of CPython's `_randommodule.c` (`init_genrand`, `init_by_array`,
`genrand_uint32`), `Random.seed` for a non-negative int argument,
`Random.getrandbits`, `Random._randbelow_with_getrandbits`, and
`Random.shuffle`.  The 624-word generator state is packed little-endian into a
single `Nat` (word `i` occupies bits `32*i .. 32*i+31`), which the kernel's
bignum arithmetic evaluates efficiently. -/

def mtMask : Nat := 4294967295

/-- Word `i` of the packed state. -/
def mtWord (s : Nat) (i : Nat) : Nat := (s >>> (32 * i)) &&& mtMask

/-- Replace word `i` of the packed state by `v` (with `v < 2^32`). -/
def mtSetWord (s : Nat) (i : Nat) (v : Nat) : Nat :=
  s + (v <<< (32 * i)) - ((mtWord s i) <<< (32 * i))

/-- 32-bit wrap-around subtraction (C unsigned arithmetic). -/
def sub32 (a b : Nat) : Nat := (a + (4294967296 - b % 4294967296)) &&& mtMask

/-- `init_genrand(s)`: fill the 624 words from a single 32-bit seed
(`mt[i] = 1812433253 * (mt[i-1] ^ (mt[i-1] >> 30)) + i`). -/
def mtInitGenrand (seed : Nat) : Nat :=
  (List.range 623).foldl
    (fun packed kk =>
      let prev := mtWord packed kk
      let next := (1812433253 * (prev ^^^ (prev >>> 30)) + (kk + 1)) &&& mtMask
      packed + (next <<< (32 * (kk + 1))))
    (seed &&& mtMask)

/-- `init_by_array(key)`: the seeding routine CPython uses for int seeds.

The C code carries mutable indices `i` (cycling through `1..623`, copying
`mt[0] := mt[623]` each time it wraps) and `j` (cycling through the key);
here both are computed from the loop counter `kk`: in the first loop
`i = kk % 623 + 1` and `j = kk % key_length`, and in the second loop
(which starts where the first left off, at `i = max(624, key_length) % 623 + 1`)
`i = (kk + istart - 1) % 623 + 1`.  The wrap-around copy happens at the end of
any step that wrote index 623. -/
def mtPass1Step (key : List Nat) (keyLen : Nat) (mt kk : Nat) : Nat :=
  let i := kk % 623 + 1
  let j := kk % keyLen
  let prev := mtWord mt (i - 1)
  let cur := mtWord mt i
  let v := ((cur ^^^ (((prev ^^^ (prev >>> 30)) * 1664525) &&& mtMask))
              + key.getD j 0 + j) &&& mtMask
  let mt := mtSetWord mt i v
  if i = 623 then mtSetWord mt 0 (mtWord mt 623) else mt

def mtPass2Step (istart : Nat) (mt kk : Nat) : Nat :=
  let i := (kk + istart - 1) % 623 + 1
  let prev := mtWord mt (i - 1)
  let cur := mtWord mt i
  let v := sub32 (cur ^^^ (((prev ^^^ (prev >>> 30)) * 1566083941) &&& mtMask)) i
  let mt := mtSetWord mt i v
  if i = 623 then mtSetWord mt 0 (mtWord mt 623) else mt

def mtInitByArray (key : List Nat) : Nat :=
  let keyLen := key.length
  let mt1 := (List.range (max 624 keyLen)).foldl (mtPass1Step key keyLen)
    (mtInitGenrand 19650218)
  let mt2 := (List.range 623).foldl (mtPass2Step (max 624 keyLen % 623 + 1)) mt1
  mtSetWord mt2 0 2147483648

/-- Helper for `pyBitLength`: count binary digits, with fuel (structural so the
kernel can evaluate it; `fuel = n` always suffices). -/
def bitLenAux : Nat → Nat → Nat
  | 0, _ => 0
  | fuel + 1, n => if n = 0 then 0 else bitLenAux fuel (n / 2) + 1

/-- Python `int.bit_length()`. -/
def pyBitLength (n : Nat) : Nat := bitLenAux n n

/-- `Random.seed(n)` for an int `n ≥ 0`: split the seed into 32-bit words,
little-endian (`[0]` for zero); the word count is `(bit_length - 1) / 32 + 1`. -/
def natToKey (n : Nat) : List Nat :=
  if n = 0 then [0]
  else (List.range ((pyBitLength n - 1) / 32 + 1)).map (fun i => (n >>> (32 * i)) &&& mtMask)

def mtTwistStep (m kk : Nat) : Nat :=
  let y := (mtWord m kk &&& 2147483648) ||| (mtWord m ((kk + 1) % 624) &&& 2147483647)
  let v := mtWord m ((kk + 397) % 624) ^^^ (y >>> 1)
             ^^^ (if y % 2 = 1 then 2567483615 else 0)
  mtSetWord m kk v

/-- One block generation step of `genrand_uint32` (the in-place twist over all
624 words; later words read earlier words already updated, as in the C code). -/
def mtTwist (mt : Nat) : Nat :=
  (List.range 624).foldl mtTwistStep mt

/-- Generator state: packed words plus the extraction index `mti`. -/
structure MT where
  state : Nat
  index : Nat
deriving DecidableEq

/-- `random.Random(seed)` for a non-negative int seed. -/
def mtInit (seed : Nat) : MT := ⟨mtInitByArray (natToKey seed), 624⟩

/-- The MT19937 output tempering transform. -/
def mtTemper (y0 : Nat) : Nat :=
  let y := y0 ^^^ (y0 >>> 11)
  let y := y ^^^ ((y <<< 7) &&& 2636928640)
  let y := y ^^^ ((y <<< 15) &&& 4022730752)
  y ^^^ (y >>> 18)

/-- `genrand_uint32`: twist when the block is exhausted, then temper. -/
def mtNext (g : MT) : Nat × MT :=
  if g.index ≥ 624 then
    let s := mtTwist g.state
    (mtTemper (mtWord s 0), ⟨s, 1⟩)
  else
    (mtTemper (mtWord g.state g.index), ⟨g.state, g.index + 1⟩)

/-- `Random.getrandbits(k)` for `0 < k ≤ 32`. -/
def pyGetrandbits (g : MT) (k : Nat) : Nat × MT :=
  let r := mtNext g
  (r.1 >>> (32 - k), r.2)

/-- `Random._randbelow_with_getrandbits(n)`: rejection sampling.  The rejection
loop is given explicit fuel; every concrete evaluation in this file stays far
below it, and theorems never depend on the exhaustion branch. -/
def pyRandbelow (fuel : Nat) (g : MT) (n : Nat) : Nat × MT :=
  match fuel with
  | 0 => (0, g)
  | f + 1 =>
    let k := pyBitLength n
    let r := pyGetrandbits g k
    if r.1 < n then r else pyRandbelow f r.2 n

/-- Swap positions `i` and `j` of a list (`x[i], x[j] = x[j], x[i]`). -/
def listSwap {α : Type} (l : List α) (i j : Nat) : List α :=
  match l.get? i, l.get? j with
  | some x, some y => (l.set i y).set j x
  | _, _ => l

def pyShuffleStep {α : Type} (n : Nat) (st : List α × MT) (t : Nat) : List α × MT :=
  let i := n - 1 - t
  let r := pyRandbelow 1000 st.2 (i + 1)
  (listSwap st.1 i r.1, r.2)

/-- `rng = random.Random(seed); rng.shuffle(l)` — Fisher-Yates from the top:
`for i in reversed(range(1, len(x))): j = _randbelow(i + 1); swap`. -/
def pyShuffle {α : Type} (seed : Nat) (l : List α) : List α :=
  ((List.range (l.length - 1)).foldl (pyShuffleStep l.length) (l, mtInit seed)).1

/-! ### Literal MT19937 states for seed 20251012 (used by the featured-rotation analysis)

Each literal is verified against the algorithm by the `decide` lemmas below;
the evaluation is staged in chunks of at most 312 generator steps. -/

/-- MT19937 state after `init_genrand(19650218)`. -/
def mtSeedA : Nat := 62685089405509111925910797243914719854890513935494713084094713797279779630627496305943786046941309007281293105221577504421353501605599255248785149356818580886163074212016138319710181437623915839386196989339984175865611290932895638485827512283879634622589907034847096838980553398268338905605705315464924834076955485269257682765843392777664062904318116756644819538761883164862381873685805923051342196114892111881287659915424456096361326051748180740843339721465950121631833352165428366344241754810081140762710579390137795215443629123183303201044796731629341661542390258966032612552126580439913324626563213547393121217728067632048719897064596438939163041106934301355643192260261867872030533878188557727018817797219012064641958276099544136480610826250078810896212505254064619595899307426216931651016613164877613570296351724055264357110051005104450572173606849938075379012356137114572525910752676385589168436483206759652170097284388598518122222819376116616668668677988651997615236221431416155794821321118852088948452164682783715959922435191327367306488124638818446090532334864386359317233873012285172875896330714873881780586230596002778688422250420590175698633544778262136505069053046737202152515000629854634631225453245996997340762744567896897683212149150732909707719966588817675821630380251456266588599804209831660991462715440400663143017564651072677052296295930367391822676512661642282350234567553218318066651318510488484545671729568971887621684270732981974442582657502555066960418690332945218280990034155505553171409775830458482159957769211244505225186771766058316021949327301666418107251589707938065072144733816368743637495699897181007119363672460040974223449086641663004605507793014252452324150238463715514559124307431648478948480649031081489229583165223570218974125422263886587593014744330199975749832650568652404661542746543584685860761547297457070273167102314576665676644281998277713093924236551494770138725647883566971887853912300960949802636372591951717316415323846182747445131420005722224687602711525724505110953736568981699982016588947035894059736087136235396798804019434387781559696138411966704777989194870090051835909943079457649936020314680876367897457337488804889342331824364904005266943816631681518612047693872607083945336048154993001716858914072302230374294986610531277637599664647525761147514008899238689946802093944865612982597431648203028809043429562401771290925843222821220221381984318518256971016750121270624021542153515130386081256853244444367484914891752438843250797295149886721543902585582757118492217204960123203770309672216674331373413106027454841661967870247822106376003696537006476355273043676224973894002060133928765135363584693312631060562155459381152426642778209514491263275588735458188352331628933634618912177576995916817414488324819680108333628484452298807271017999262374749573133359090629722111402666396222385680310709557844049479865847370371052888681758484468279513921172987571336140289500145715018352119752770038578015899178947425013401300127437407370742417936980607757405410607208376626705322894782663757703548808362869195819947150150865798288136994832911439410269353230208345410503242199606186650417333579047848825834242257112060317620885151293421378661990197161958015730358249113963865616811805417654957899792836277351433146683316643158745577273742588847277405020330699298979666450169324546781433015633218213248018986767013905101885085728066131985273947793365444250280947765884488609302913437528001802423347517836456663978922564542901160075954132077499502061844004777463229898312792357201472450520034421742281215395838957029567457078867297742321364249618062920323524100796395855490398720473188748064226082130624085325443879193454095100721902723688608983702297802922465778395428510531587340343771240068168890882622394112252370643121994567113348850616779414952571984309063927162547038575769391208822294299053225776973195785292510157058775147687493667385905281728614066936870793483631104130486096422866739022254251631022238998824784309871214211336594149372534724828516536519652291847191320934127662041939033266344757810255450761243406685982638804631309022215852991706323223872506356963395668107287976200691035733250165615782065576159415303394415966535152327550107294310945533761757937224536792146711105700674959937207778503501562879445241463662142281185819506210181780721218897488871995890898495582077564387715740371190275817001449471008660140255770382875594805433223352833476546594040372715841292252983175468170554585838014797017976570586587751089146553833551413146641975370517778330202052282190648141351908509904289169596729111939424597802445523234111653813513351586367960175769546506050051493655326103823629699245586418016468660736051425039803522537493270385743437525903109563398688573456345292160567787373069854610200635728800730405759403691875432721043746233636765094325962472698626875833148826372580999341547042531665331710768365982359935219565301595187067772247975847412037958098451506998773182171027695752045356894447709388159633645629545493246019135820915900506906032640701290570506299065346661219735445730896769091171352761432210047450382980030625592142825700677633624952217795344145832513082782540989616413040988227257601039794195623143595351637462190706636535912449334420058581521218743569834717812580171279915160794789675762903718339466089866492140118823551337811927493524761760551434001520245324751568861558716803095718510972066599595072196209156923318071322517301806566620458899402166430591631348363311478802800521980525250372511467674969151489645720009661369785217086930227581405674315978920044798755483144811069077253851302610194739624245401270682864202663540116818822475326676741780611737275972111438408802370422377608919256570335384654037352344114105999356653180812503717835632673409647782213628400383443178293619326757139369589058612122088577237252104060778375287897543799460272211546791798613974575310224299012205778134871255296492395729078221387894808011355820153110205338707003138385845672884757408327786763143168159295742358655797897448897721796416755370

/-- State after the first 312 steps of the first `init_by_array` pass for key `[20251012]`. -/
def mtSeedB : Nat := 62685089405509111925910797243914719854890513935494713084094713797279779630627496305943786046941309007281293105221577504421353501605599255248785149356818580886163074212016138319710181437623915839386196989339984175865611290932895638485827512283879634622589907034847096838980553398268338905605705315464924834076955485269257682765843392777664062904318116756644819538761883164862381873685805923051342196114892111881287659915424456096361326051748180740843339721465950121631833352165428366344241754810081140762710579390137795215443629123183303201044796731629341661542390258966032612552126580439913324626563213547393121217728067632048719897064596438939163041106934301355643192260261867872030533878188557727018817797219012064641958276099544136480610826250078810896212505254064619595899307426216931651016613164877613570296351724055264357110051005104450572173606849938075379012356137114572525910752676385589168436483206759652170097284388598518122222819376116616668668677988651997615236221431416155794821321118852088948452164682783715959922435191327367306488124638818446090532334864386359317233873012285172875896330714873881780586230596002778688422250420590175698633544778262136505069053046737202152515000629854634631225453245996997340762744567896897683212149150732909707719966588817675821630380251456266588599804209831660991462715440400663143017564651072677052296295930367391822676512661642282350234567553218318066651318510488484545671729568971887621684270732981974442582657502555066960418690332945218280990034155505553171409775830458482159957769211244505225186771766058316021949327301666418107251589707938065072144733816368743637495699897181007119363672460040974223449086641663004605507793014252452324150238463715514559124307431648478948480649031081489229583165223570218974125422263886587593014744330199975749832650568652404661542746543584685860761547297457070273167102314576665676644281998277713093924236551494770138725647883566971887853912300960949802636372591951717316415323846182747445131420005722224687602711525724505110953736568981699982016588947035894059736087136235396798804019434387781559696138411966704777989194870090051835909943079457649936020314680876367897457337488804889342331824364904005266943816631681518612047693872607083945336048154993001716858914072302230374294986610531277637599664647525761147514008899238689946802093944865612982597431648203028809043429562401771290925843222821220221381984318518256971016750121270624021542153515130386081256853244444367484914891752438843250797295149886721543902585582757118492217204960123203770309672216674331373413106027454841661967870247822106376003696537006476355273043676224973894002060133928765135363584693312631060562155459381152426642778209514491263275588735458188352331628933634618912177576995916817414488324819680108333628484452298807271017999262374749573133359090629722111402666396222385680310709557844049479865847370371052888681758484468279513921172987571336140289500145715018352119752770038578015899178947425013401300127437407370742417936981564137880609325282168565212143882030870626523851041758904997266789963058445264230131880885326562314963216706738860304207436283848493083490206633702859127823881425987960884429298092832481046388213952167748162958297145529435960942737232715415188084742336672741178446619513650830282292591356585639336481972106865095199307610839458215526645964870276135777829286048995439345613759713929167604462544177934828229540187319801213554569047859950359643613921158539218889773882000073586228483485331069662395545744061605525181196467802034696520891887633073294799496546994480918657522594600676614957905151605807750799730883021652822726558234812200572808836239199194313395405710213649485158823394053333058734842797231396346208161000823134655081623896955477081772290370782862415813661901255526234888235507789011520807667521267376603886475723165166545527698506132783083230818114316490745094395082016035255184829221029385478085609930492012544226537818383113280482129185973859742592932716885501313062558950608911848771216659686102740724302618915679629785827021788983607544216704270689645672767521715629678737293394856631530290328746487855350252449092252566829599694618803867300408640203003048681379203634400931785939170787300520807544014340907402259546970497198161724785485998279107335956957889040821431290160227441374704617541708484850613375066314401116797978496689580862274442882457685362375656175626239152764309784912146900013400350234006321656602337676781830924665357971520078022007065322662771406098378466381390614559864438330382538780154583207332377741969029577938448187394387158372838470054620396591851266336222225897920845437082098885085029495786898091362190273936928210398215682950059918869990112712418315361762601901053484544350302181180239082555427007288266284334656826045220694228637131528682225768913244937889275467844506214974480783764807002072659429808958866916281295677203143763514630452494560558701609421890231269257235123280868597174417803203551762964346332499709502815001917147766461338851491627303602344275100455558489120722111032206015049087533941499271546820943273846802065587721815335781438003758523131730790567441647718933470408283441602347990322605701328801104039850023617660590284651146745218339306934005246837367097483612999294287562304278857754173845246333150493597058461497202767982985862704607153595466147145675190842382836142192858303236541455200423390250396830187226265485054505327467005179993288630050205234329800691785866724081017570615411439957073135679979100830613043722618970846434917624147152716099145773142348304076184893506326056354507312416451863926612748488267146093863585917999690340101328908324469508074619734519792216088336285102849293995804466241279907565942598352913225441712874314884146539048620371937573891030661320626226809890928145007810398968408507463742833841273636390072118874997964698968392754835469091595532574773871353473539322391762725656753495949843459201302604599843450994439497587937186395611857562469965434032707558692690412139251423687079367338237449355189291132870448810

/-- State after the full first `init_by_array` pass for key `[20251012]`. -/
def mtSeedC : Nat := 26506792904240115734593360737051917741474249530828725454425810353304682045677147456130591475081143630865855132568149452068006341388035998129150070382343735224504860134475880198706509925386846843008982757289536188133076899473097726603223780598583510663413831349196090189726738073246716362505141262344052345324559687783160789956103565411182116555373648195781846768884172196127026759411389410684393516622082961111269562231850834696745653574502000090192366387871427318147952334159918463260630912933126244416112595472574036609694114980396994152351216379090395416493753392809999911322552533974404173086608924973461314022708895480791332290564240569974860295783259601337641535785204267228238961831974326773843187513591249708798699576245088598412919423206975282641499543821417880056722935225149098640138424704808879862391882724016892207045664135751569960934469152210538491575035287316344505391068568629549480642802169122535250369655434092913646125854834482108058000219567710376787540499165909327825825576662298946959294540697518091722554519013917561891146712449518978780723183367054306967536048382642326624304490605000986845650865237990867375098004895153850155873556691583226827141813944572675498465081878707646321038268277096306284012809615131291592237119915826324886124350603894461911802732867340838070516876787856793518966486570693613067705310238145181252249196194344348585605678535292175129811084392949829732397017471283405727254738184958134789006886721937858162290676049092913686006880097502959708539035688589344895674671949035647246642680841072373431927922461892041622032087060026410485940668441654418735276578080335708609669126623380200127184137049560891438723244976554452813663520360778219745754157570412234315418409457183416696434230071322241436389685285242816914761727419929707577397602627300638950570702555568619840960088621216664830582997313021128179073296762883757198495786241976257292851778051966240306817167440899623276254819808795224098822410930260147027893728481971273768952868371269797807144353256339331811700831919212685604707893215804899038759564436523172151663507464321508096372284891773876338578126977982258458782879676043273430644056418799505999696488546225341896022416133451884571702026527081630706080230411737816218306456206818047620914799011936165653456344752963941983519897694697817651495293663565570603267789012549626170585287977207264217651867860578648127229870224563477178241938814535182903080784393508770004117581251608993360998329915740526303970110231112685825924695331107006831279070799095692367843612033586919585425357633526810859513652107576476938955794219888992209662968931483869720252793726893140850999774023932713438349523380929954183775950203678771884670520601292588551500347046848013694773327947385051520678453153418144328493317624036133737564941176306949035439231209020656536979421349875262758818161929580794406195169561324052396704771190296255879347479205220814655993772862695473663631542691421123926337198438170750065915049066799570375979782858263324001597056792022586825241375354379439404337085323434874211705414822082597765089802353643585651671126597413436326735078277501585898170907101863996327516622449484050297840541517336957051820991380242137939756073822940415687313620569707079636786773004004724879216204959994260305951294983480055032848452890932985610991273920882072337960083164078881116073154682634154967811204740169161339593672060668570600748490373621278593465606086813331819012854502552384926195693661142891841132689749145400360706581395608812065594468198399212793788205376962326392897425093162119536678113449613963515915956250867531596528868881441807705986577792781030465388006143022200512924119918046989528329523562292655018947754060188837403331469027413210894973311929399976561041207352690695481500689067227441663721305762912937374110142358530129541591138386760567010278617908434733858679923076877175008749521001269629111624058853663390975447022423829593093493014791225431959587202800050868955852632995569610843041293782739184647798535406208951343815955209324546763649996469892996767444896946179976399039789759541409846843882841204337755569048981079188899829488006317286049170051649455473880328104652007936570970103264389475593345824015391594377595732809414430296361814488346318785540503584008155241434818848902611454526612072165623308410007107210027924760986636675059383258205680049408801568327180323031211533094497827440352545674053024665617073920530955465740202719988144274318161491717462099043084312862881224223772846106895457226593431880090992552702947191656752938309606594066361739593558567629175691498309729802961684130164547781002924052780916683900984616493588070119553683806047594896601627963467475214589116638134424728731191445345665108728496737993512897508055992913792368910828406440857980004234715095218620766625352450201019652623605791726777290533519458181122823994170794961905267565876045716184567930575873607533737649369694324435341094158381638164238903789766629759652544407661545725588663384211581049189318032945256783968929918759961725425661816869370917585936016619902650068182791716445220924088654912426126413107737738948549128753951245557776411956529205625254887761353216510316537785476584315611541579363830077931627783073740919151534454194705010670764649283693007302579824365849539707671088791986129593589518945398982266720330360744583239814019376052206488447953807423843736245585729443352911460889934751419315341154526404384899222678556102448528171788912689986475618914009014057592016476056482839426812941222844376444748488860114925415609806414851318036802428183433820935054423497911179441445219669303889938101936721678377333595058497491579576871917161551681852503817819855538320536211310740207085272899859533439204968529040488015817509736892936197023420911945510138390021179516299299845213081872861333062711141799961077298882738759055833436722576808144700266298808092877169029180789000910293227866025044421084799694939174843639688450310904567637583105144285461179147133312525743001032403113824796501885000052994214986660436607940821205445808

/-- State after the first 312 steps of the second `init_by_array` pass. -/
def mtSeedD : Nat := 26506792904240115734593360737051917741474249530828725454425810353304682045677147456130591475081143630865855132568149452068006341388035998129150070382343735224504860134475880198706509925386846843008982757289536188133076899473097726603223780598583510663413831349196090189726738073246716362505141262344052345324559687783160789956103565411182116555373648195781846768884172196127026759411389410684393516622082961111269562231850834696745653574502000090192366387871427318147952334159918463260630912933126244416112595472574036609694114980396994152351216379090395416493753392809999911322552533974404173086608924973461314022708895480791332290564240569974860295783259601337641535785204267228238961831974326773843187513591249708798699576245088598412919423206975282641499543821417880056722935225149098640138424704808879862391882724016892207045664135751569960934469152210538491575035287316344505391068568629549480642802169122535250369655434092913646125854834482108058000219567710376787540499165909327825825576662298946959294540697518091722554519013917561891146712449518978780723183367054306967536048382642326624304490605000986845650865237990867375098004895153850155873556691583226827141813944572675498465081878707646321038268277096306284012809615131291592237119915826324886124350603894461911802732867340838070516876787856793518966486570693613067705310238145181252249196194344348585605678535292175129811084392949829732397017471283405727254738184958134789006886721937858162290676049092913686006880097502959708539035688589344895674671949035647246642680841072373431927922461892041622032087060026410485940668441654418735276578080335708609669126623380200127184137049560891438723244976554452813663520360778219745754157570412234315418409457183416696434230071322241436389685285242816914761727419929707577397602627300638950570702555568619840960088621216664830582997313021128179073296762883757198495786241976257292851778051966240306817167440899623276254819808795224098822410930260147027893728481971273768952868371269797807144353256339331811700831919212685604707893215804899038759564436523172151663507464321508096372284891773876338578126977982258458782879676043273430644056418799505999696488546225341896022416133451884571702026527081630706080230411737816218306456206818047620914799011936165653456344752963941983519897694697817651495293663565570603267789012549626170585287977207264217651867860578648127229870224563477178241938814535182903080784393508770004117581251608993360998329915740526303970110231112685825924695331107006831279070799095692367843612033586919585425357633526810859513652107576476938955794219888992209662968931483869720252793726893140850999774023932713438349523380929954183775950203678771884670520601292588551500347046848013694773327947385051520678453153418144328493317624036133737564941176306949035439231209020656536979421349875262758818161929580794406195169561324052396704771190296255879347479205220814655993772862695473663631542691421123926337198438170750065915049066799570375979782858263324003264587997115608501516170183036948936411794984962715949436534630481537967954972043859690186248576702770008263790589416730385836211892071268334713970354344185585479342051973548289823443954535239078293588181436700035027502219793461468905209341521365100311517326205851842603019901734219916467127016655767052560343595282059674891278168909935642312122151603587011570843260460084624359811310963644164841401338541997806004548682695549125021865994827651152922027169524364016678287808484359523411008389439964643502551076171733439116050198471721976555352422691055795945026994523813408174265040890727242305338586827653623751577462815496823678629103887997077157048431601052618003176522659013285409396773603285432861591939450690478994198570298608983715229296400099675723373069536236089614171015389485460569995699446968527195485589704557970859227399360145725969528312069170906808612108566022026192500365857672066999914362560636181009574109353829224307656918532152430590951491506559096076453854221710008820889549612607713998094012822997910261104338746514017614783276258893063003811104193047904567847834159141224087771524417630480626405680702064922587129199961761476076329719794936499815971200751597262744328627041678110086059652020776495740774017813799788372666491030373334275380769301470873806101153098953170265598181107895779937746995712906116074903492815414157116740519322547749183525152587907924870298742906143707624066205873685429833500798510463003860491082362428606982188574246552864571585794967291453590692921494261013632209684339174613397134302965380855283079299802953863355516801333756386474647242195959847271551244035268799789092733228151883595379010453665848328509496631582884391093914749989665307884828821072388124098891299033031480747082266180227230007594206649455168890885060328974902390772825954475375778689410153781242115475209358425653764381496692385907471332427456004981744221491575280736756244547597112119061260548274111868630866889380783037965184283510338715248255829077558019110484516729568818613597225727992101183501177033761166463165593991043920291325210527213422522848553252358250946298340584724535497474549801304351750612519387256072431789609820456002643439815034584021598742095223805382842789976379942763727515487246341487818785019743010494978541890558511182257100033990969490582066411861461192374821388308061429570291705956873410239322776245985797465716230131986726308237569105109074949370015986104669651167923244584011461721036581475250162398564707027925106536505332800575143334933267517871113396047495283936282106323432890338622279027131082293256780309557977942368415690850819341524221821284136800428502601277154575450495673506499069024602593566629912243335494406347316153825767067083315737160013618780818556561334282810400415702074052810855846384970856496925852678850701529447942004909106964177657815995634169375223670414956179203878625489933821670127990968186633643343667779015086754662573351095357942821447544426878843103009195379938166849126963142639897745169562379933683222070190751362229628414402210884784

/-- State after the full second `init_by_array` pass. -/
def mtSeedE : Nat := 11361489537727824162054325106331993497705426570330620422634980780903504386960932987665133160868614365849317686692060095396913221792008895516811611515363715852975037768921302369552142331871041561050224984512250921579757132906046802382528226317946805327259878298499974937907687341885342290632728298928677255811341481397152524684862993681414471837098064602941136532256695345321578301698521463781263539995410477020967183636907594126655369749099680773052199012022611478376723613658468600301724112651565118125215710829082739687893996405673017883012981120180041486069450361749041840942113149617328784333207881709089411493476440292289776212518952717288258553468146213830927588088006686309262556696429736434684289528710012935388817394149413714535060012149308447203017527230874460458584715741354684979037229498613107194572110651947056548942745159562853381002709219569655652081657765201009230513255072185608285192927229295035718374093765722800919926820898763825874057206125165434569269031609760767029744852488660087717144889780107796524013297412277935232275608219879437512975258085943210579813536823011708641492630329870602783602063092390692328739956300880615344536263698753201527917429291241390939788731407010251763811753685637792911290464399683977401715056131070724395463242824371700217532213181457263084734469180488441492128823766190143577321691908755700309023625384368076093613563416674580789170531486899897660957443832769037122141724329200889664756065528085062688138332517679079657809769999854545019004260575772588963995499433177550899150697375852252300060569092648533633164616451906208314397962296503352485178202966932038398264126257987698248928995310786658874870597786049687098401394753693517931645848976187430208812794417200545406309677807592943681571660267370403098001036632467513475630502818688885063717435865196289908443560293427128021925309862430437428671559414570916509165134214430912887623434581998250238810252000514412816656149057628560797405342208613466811196042410178810316455121917945766845161664723095819496326167855038441757901170639454437900617192276640011644515957616631582629599048596062144453862767677101847104147758375950102151232949413061527455515395545842940847480093486095179241891337866057420563575490436091898367719807498708323421279807749512152009191196876303567785085009719074623274833812127206324852826122050405200491267996257759138516005853467287178102419344469332832938105472551316977336219884376242049381068389559829641169369306006849986992836056033176170527780615135608700127198094945968306589092488916048481089384793596102890963350287296537269089728965236024329370137827300879280968235934846447410542111198470613370188432019628444120061590903991042134449246957337341271902884707795305082586848757303154756369905526091778707064738943358593786419553015627581587856847009451841466126752774260834961600547129671341208566162851750021700092824366697606991330787610740916894945447626064228657170738169477594323286505375173843649195334025440793553246551463659362031533248896045210888518104956873340415361879922320123964917205927142403025344410309222018620522769772561264231254561439345224304986539399507200322341258892931895707299107381883547789686563340824131713241281396573724526491774389286465860528131861055899643355840111626555333305638172214260868922495717940232217373567637485598704217721782370546351979823352640794656774321879122177259453928587681587335114976394879485581166258305033555129979500168779884853124297948687795580517160125577372777178611753083094876008600165031171485856395029908828461476977956268362058748280394865995457456506589288138536372463006050713298361996481445850865683534691264409760487139141450040351115637397983434660643405694173114674272725059852799742594968275052183727726739421138105808435943911214246294026098410855789090570037625648338952075439489111091831868094254376393420649206205339681020797612207077032349883473677102067572836235746646360324049394883100533817722085311065702062285743081719160178652541875980999878308093144372315484038052852756165556814607810160147236013476275833873960904547638543982189291907672320539314023576639454264679054866091257574653540041638755361626862378039186162404695047923716746822275750247708615010941151125328429565963614191582658698963243899751753131122459859131282071842033967428587916258175697721473978937123779743381170274620363392975953798976287703562939974397906443271131791887142560109617902659621517057563930114561552080060945578203414765207984441745419795193435756002945762094703345062290911097242732530510579142362420486579081986489797310357910999186113952574598294218609782037558004737993411020585245009982538059408456859007728989902884706201763788772015419569329180633424104215276524441501404489971504573898998584499912862094171784477570176684142079480802813169191654488921817794781526368687851332211983754632476864139232047740935638647264818348711366742665411788209858940566229727588522400904861427870860234291105458229067164622520189419467255955372470988635492733242922472717252825279355624558259594924692613195584337346480406452780396864808135122861155859856834548764443359708299937979937394492795313903610254015948775599220527904169891213943329592981566803379378990611902582324252175012192679463766909678285733265603561863620777912269510660527356645313100541009669534800853454379647409308381707606217539443554879144040642231806411865323898892750389371974375165475204174400627816768435001260454123192522858054918416113478134888299552340915513990063994363607104092326553954034102148680006594150181714612932745032932589979709734384450759100570077524530159606262715255670175447304973546830013065368419392158378664578707181469776679578377110532754318539489529376193811308568101690413145662990809624596024780702599314242785677282998099770083632287995541587646592399992681697333640925694610938014115237397021364233195547101989052100271411680292174485794081516277767228605775070690643374153681045649888436168300130865960852641569675567874653818025757626632351947202072098331571543425680854831819163365003136480

/-- The full seeded state of `random.Random(20251012)` (after `mt[0] = 0x80000000`). -/
def mtSeedF : Nat := 11361489537727824162054325106331993497705426570330620422634980780903504386960932987665133160868614365849317686692060095396913221792008895516811611515363715852975037768921302369552142331871041561050224984512250921579757132906046802382528226317946805327259878298499974937907687341885342290632728298928677255811341481397152524684862993681414471837098064602941136532256695345321578301698521463781263539995410477020967183636907594126655369749099680773052199012022611478376723613658468600301724112651565118125215710829082739687893996405673017883012981120180041486069450361749041840942113149617328784333207881709089411493476440292289776212518952717288258553468146213830927588088006686309262556696429736434684289528710012935388817394149413714535060012149308447203017527230874460458584715741354684979037229498613107194572110651947056548942745159562853381002709219569655652081657765201009230513255072185608285192927229295035718374093765722800919926820898763825874057206125165434569269031609760767029744852488660087717144889780107796524013297412277935232275608219879437512975258085943210579813536823011708641492630329870602783602063092390692328739956300880615344536263698753201527917429291241390939788731407010251763811753685637792911290464399683977401715056131070724395463242824371700217532213181457263084734469180488441492128823766190143577321691908755700309023625384368076093613563416674580789170531486899897660957443832769037122141724329200889664756065528085062688138332517679079657809769999854545019004260575772588963995499433177550899150697375852252300060569092648533633164616451906208314397962296503352485178202966932038398264126257987698248928995310786658874870597786049687098401394753693517931645848976187430208812794417200545406309677807592943681571660267370403098001036632467513475630502818688885063717435865196289908443560293427128021925309862430437428671559414570916509165134214430912887623434581998250238810252000514412816656149057628560797405342208613466811196042410178810316455121917945766845161664723095819496326167855038441757901170639454437900617192276640011644515957616631582629599048596062144453862767677101847104147758375950102151232949413061527455515395545842940847480093486095179241891337866057420563575490436091898367719807498708323421279807749512152009191196876303567785085009719074623274833812127206324852826122050405200491267996257759138516005853467287178102419344469332832938105472551316977336219884376242049381068389559829641169369306006849986992836056033176170527780615135608700127198094945968306589092488916048481089384793596102890963350287296537269089728965236024329370137827300879280968235934846447410542111198470613370188432019628444120061590903991042134449246957337341271902884707795305082586848757303154756369905526091778707064738943358593786419553015627581587856847009451841466126752774260834961600547129671341208566162851750021700092824366697606991330787610740916894945447626064228657170738169477594323286505375173843649195334025440793553246551463659362031533248896045210888518104956873340415361879922320123964917205927142403025344410309222018620522769772561264231254561439345224304986539399507200322341258892931895707299107381883547789686563340824131713241281396573724526491774389286465860528131861055899643355840111626555333305638172214260868922495717940232217373567637485598704217721782370546351979823352640794656774321879122177259453928587681587335114976394879485581166258305033555129979500168779884853124297948687795580517160125577372777178611753083094876008600165031171485856395029908828461476977956268362058748280394865995457456506589288138536372463006050713298361996481445850865683534691264409760487139141450040351115637397983434660643405694173114674272725059852799742594968275052183727726739421138105808435943911214246294026098410855789090570037625648338952075439489111091831868094254376393420649206205339681020797612207077032349883473677102067572836235746646360324049394883100533817722085311065702062285743081719160178652541875980999878308093144372315484038052852756165556814607810160147236013476275833873960904547638543982189291907672320539314023576639454264679054866091257574653540041638755361626862378039186162404695047923716746822275750247708615010941151125328429565963614191582658698963243899751753131122459859131282071842033967428587916258175697721473978937123779743381170274620363392975953798976287703562939974397906443271131791887142560109617902659621517057563930114561552080060945578203414765207984441745419795193435756002945762094703345062290911097242732530510579142362420486579081986489797310357910999186113952574598294218609782037558004737993411020585245009982538059408456859007728989902884706201763788772015419569329180633424104215276524441501404489971504573898998584499912862094171784477570176684142079480802813169191654488921817794781526368687851332211983754632476864139232047740935638647264818348711366742665411788209858940566229727588522400904861427870860234291105458229067164622520189419467255955372470988635492733242922472717252825279355624558259594924692613195584337346480406452780396864808135122861155859856834548764443359708299937979937394492795313903610254015948775599220527904169891213943329592981566803379378990611902582324252175012192679463766909678285733265603561863620777912269510660527356645313100541009669534800853454379647409308381707606217539443554879144040642231806411865323898892750389371974375165475204174400627816768435001260454123192522858054918416113478134888299552340915513990063994363607104092326553954034102148680006594150181714612932745032932589979709734384450759100570077524530159606262715255670175447304973546830013065368419392158378664578707181469776679578377110532754318539489529376193811308568101690413145662990809624596024780702599314242785677282998099770083632287995541587646592399992681697333640925694610938014115237397021364233195547101989052100271411680292174485794081516277767228605775070690643374153681045649888436168300130865960852641569675567874653818025757626632351947202072098331571543425680854831819163366624067584

/-- State after the first 312 steps of the first twist of `random.Random(20251012)`. -/
def mtSeedT1 : Nat := 11361489537727824162054325106331993497705426570330620422634980780903504386960932987665133160868614365849317686692060095396913221792008895516811611515363715852975037768921302369552142331871041561050224984512250921579757132906046802382528226317946805327259878298499974937907687341885342290632728298928677255811341481397152524684862993681414471837098064602941136532256695345321578301698521463781263539995410477020967183636907594126655369749099680773052199012022611478376723613658468600301724112651565118125215710829082739687893996405673017883012981120180041486069450361749041840942113149617328784333207881709089411493476440292289776212518952717288258553468146213830927588088006686309262556696429736434684289528710012935388817394149413714535060012149308447203017527230874460458584715741354684979037229498613107194572110651947056548942745159562853381002709219569655652081657765201009230513255072185608285192927229295035718374093765722800919926820898763825874057206125165434569269031609760767029744852488660087717144889780107796524013297412277935232275608219879437512975258085943210579813536823011708641492630329870602783602063092390692328739956300880615344536263698753201527917429291241390939788731407010251763811753685637792911290464399683977401715056131070724395463242824371700217532213181457263084734469180488441492128823766190143577321691908755700309023625384368076093613563416674580789170531486899897660957443832769037122141724329200889664756065528085062688138332517679079657809769999854545019004260575772588963995499433177550899150697375852252300060569092648533633164616451906208314397962296503352485178202966932038398264126257987698248928995310786658874870597786049687098401394753693517931645848976187430208812794417200545406309677807592943681571660267370403098001036632467513475630502818688885063717435865196289908443560293427128021925309862430437428671559414570916509165134214430912887623434581998250238810252000514412816656149057628560797405342208613466811196042410178810316455121917945766845161664723095819496326167855038441757901170639454437900617192276640011644515957616631582629599048596062144453862767677101847104147758375950102151232949413061527455515395545842940847480093486095179241891337866057420563575490436091898367719807498708323421279807749512152009191196876303567785085009719074623274833812127206324852826122050405200491267996257759138516005853467287178102419344469332832938105472551316977336219884376242049381068389559829641169369306006849986992836056033176170527780615135608700127198094945968306589092488916048481089384793596102890963350287296537269089728965236024329370137827300879280968235934846447410542111198470613370188432019628444120061590903991042134449246957337341271902884707795305082586848757303154756369905526091778707064738943358593786419553015627581587856847009451841466126752774260834961600547129671341208566162851750021700092824366697606991330787610740916894945447626064228657170738169477594323286505375173843649195334025440793553246551463659362031533248896045210888518100640314329321277306394835461525454827570639573245445147773282956514837713701757187575334355384423065052532018980869224046356247190244859291684546269369403766768156612679675063041359471326702936283546202845852881131130838095543781874890334072595602991683522278724422736979719843128698851606968141741098647679583329896759336303743076777010419626837653651609034865478095048965472502578022225887891529429367546151446278505281234602856435660163352885048374657621974597899437494453095392219996929999868367338713416250380623526860008697852154712863334781195451249643158968034511033238400789862853577124752077252229829165906139868941255209268109219636753371254409761015144093755754783971464657664456075246068793952767459712158280831027757638187213908382917253559650269593849285672808093061230715459905785931580733342688892958130415731206680492785658875900153216058964936876528680998298029867931913843850360519444656161214593474277923110521622114833889962297290591827254691130135530857932351977757126479426741450437514171014813913916757811316049630190837804626597229479041619933875640291892430944572885321368582028787762128242750729707137638701687769839483388285779099998460080986853290379002280094481400298566834743905470886742769156078692557600095765699696916360989081940998923513290178164046566010027715048530650977119423795773754964427232606198232360919952447324287198218444510290968614052673250050187678358138199244567934458196673361018963204367645207405736100499069424654090456973956128875333673349891970839567519308738250744908851426465508592494837199380124746766807570078960153356654702075653032741276378423778871587420483800430693233672658071353598829219393769418421852862194613408734676202877195665999331619584374788180401895111155958248050698478875834943541554451031318746039468077101862505220200079196880126639762530434513106112864503728626667492858986231465556011782496877660354576256266974846046788410679389647174590974671544136202180636544319307231531688743262533979635648097961400383979577137426805391211405833931300603639046325733094576144869721468691854522297562714884402696110265327841428783595925333687877523216229741829093274755268318304764678313096456843650100212585672241435687381361132599287418494050927496528549529494365912447087797398059111850193263596457333619264116078642812738672657389172858082391736593279427930120435798784365676190226141039098834961093825037498616974083568188386646884939838972063789937208051902146675729912996701090242227476740966919858997503909179523943166411588963261526563589632640770067999700832140849050199663646758479658081262880901909503673995707178739558422990589822763400445065916032849118246610640173304496784833375797861606252849205465061814402064998740333859057085336193064058120430350763841913542481440777927788414620206327487585157114005024665169696555925211362143016712513129087111219868799273919574149870796673317399650511242784107783471742106597094077642753311940146062721738948664409375649694964203991520979047285507522932044444207321401456563979

/-- State after the full first twist of `random.Random(20251012)`. -/
def mtSeedT : Nat := 36708727797250804126923741466339739652957817702567226458603921042763040563659644430031197404266674467817159988423944713171271544891757942328006894778367218902829772718987569391091081629642389623169057508851426864015562381888810627928639579243558591026203981926934095281775448980963364767167695174462890201798966625391628799866007525412454691954967642071119342212844802402847134148207929373440326861736655195524032343015528791916442328634239361844352805419510764132420919592396880991550741039695292547081762285212099883188000115864847071236947686566360332211860386450973903310299709830055464786822396301139057230187753160716639833287853169695228338597824124548470131076089850999446904085112590377842268617243729599998726150558006304979239321610341470612959169634171304305049366449012445088480276319574430254891454388694640178003590136658032792136727027869671897372280275603985752671460230836990677341430149681799030689021353353486090761586697440801942438445107825109752777195033227385864060985000299044663500457357892514285842012256944921565486616755213106544866485505152063520306394008655871795565230397073586334163474149193991973872732288361468493767851753954337015406364221675487727249717317881822481947397146425956161975409002709288029527639747454914147304456213704903354726146738356111459468606986190331053135639289193308982423442983004016585087728787339908924615001020660039859516821650454792684368113127749145134510213732860611125206970858137903577629162923631124303490073223405089787507273521225595847015817252240005632388396899556847388579342192845741838614782978740885842010443310602709219961062040761651771174315029789149638689278177699748951525969342945459050622465597297353095134670562898818796941698418628258404189032182264194154096865515311653088652773655651235200137731824245381085238107190976404622493708614689029153625557579442985042029888760461125524195750879471457626191343998725230679147944923255704048934207781079362152915988100592796875120028330351047563434739567863768594590759817584269324793539769099036135700792641554144950427045143325942326355559794728116130936108397109707850440041382461003857504562578038129191559347885307536711308688661031314185319242461679367336004961667737237791988901060515311119852315666750678612479306035330508817696904157793998569329607795163186268174948932187265856510935150152461223309272845737808614202726005308331260437310757454845906570876342978730439465598302654750077571401503233224226744633519869351022438751153611481777046187920735013641465223938953940998945107146608187702452164851777863215288022593401396805747944870846208339089137347520090949788609646094689445058489632942058871046228242270531296610076273345548524459425266174396292155057954232651195491124405860967607890751925112046847495728676113350560909948856431414334283163139840617461570372492916642999023985346102959596600097295300699801869419378397560164748005348152272439556602598905144427581048176487292080012395475707432658527737141746051972538643301882427263300237404380934380744386252977030757640420580514082843203592833854005108415558472184864843816400865115957697136165580921652894561507585235658201935973153592827610601175682199185085308549296407828712342418544585107078416451783898295507375049551665378563046126070163651468543888040897784847077121588873226222188021451732894519399885437971927358334254038714922051728453324781670285587313326901379526251906375775832315170384752013715746226953234174479974158691880282201041071659506116581367471126661915855039367601807757069792820055552024608848075267027944391153724378177273587882613352260063112940416822818737249506607751550104652763264691387203572706073528096983334897672975221379737659888727831162863427203281445508181964902167871382761885829985701598897834234008535902879534630295665782377484385661124678597207367591908957234269231430573682055352135622690674293907730884821759666578977101338243439326038990740038899654835978548837167088170542080732348258786795902465456908493729153881710259335974028278406747812275087191753119568097154311505851988358130178331437379105300182001499015414427526099476817167453943294269885719721962399834587970026783832928071824811953872647793610962852059577855517194138452485582229179751515641675461901736509207028886792567495234054637140668309263191459454708794852895827581719446847664523045332348560214882533623432690690546101087212169558545187655641472532989803361929044574937317837903361042759643278626421035703302961080681776014393343250083860696219197859037359067895716145412062491809026104797288124828285960008992338886727504022046795348605331375015201168524780339082169384515561143334694353469936487320495776419816440808736312630831435981165870487226937409803101941620789022591124252673886486741734687942758811477150218218805128834138351766091843472682061370310401908520956457952764344648931663088812953880299625369761400711003524263523005665530476995396414248017379639168863368725688557347395252119262630831119736930239147041306249623597661682369538913556084900184974639863497176167848996705871083964368071112930333878830283292214671740670624962388863847419452932679398045541159477044859849192387353204712514416865569270193206118943395854182277814257984640899430080247847418053254982050964371361284631993599588117185905180892462909015075690324527999633699813115094609693531570661733111843099402207406525161594470013850871137020423597680255416844260541473446450668405719800606936079970264603630845195476652618228417134364961100445864021553295554124763814797148780956272853144845323664042409197704983979605820770068846451739677382058945765254860851216863344963879932567409097391073355571952483904929499626327465608678716789537065862503602632232413541050308062422852137611424896615227001177859707689085654833339223008671581054244620621240438242086252612265102005604091237798872699077692601718201414061127417021266242955115411080213492814804977705717824766626006609886585068860344704026242887090253636029089696528885951785594914759690454925025682785016750699001228420425637440239390948824843

/-- Splitting a fold over `List.range (a + b)` into two folds, used to stage
the kernel evaluation of the generator state. -/
theorem foldl_range_split (f : Nat → Nat → Nat) (init : Nat) (a b : Nat) :
    (List.range (a + b)).foldl f init
      = (List.range b).foldl (fun m k => f m (a + k)) ((List.range a).foldl f init) := by
  rw [List.range_add, List.foldl_append, List.foldl_map]

set_option maxRecDepth 40000 in
theorem mtSeedA_eval : mtInitGenrand 19650218 = mtSeedA := by decide

set_option maxRecDepth 40000 in
theorem mtSeedB_eval :
    (List.range 312).foldl (mtPass1Step [20251012] 1) mtSeedA = mtSeedB := by decide

set_option maxRecDepth 40000 in
theorem mtSeedC_eval :
    (List.range 312).foldl (fun m k => mtPass1Step [20251012] 1 m (312 + k)) mtSeedB
      = mtSeedC := by decide

set_option maxRecDepth 40000 in
theorem mtSeedD_eval :
    (List.range 312).foldl (mtPass2Step 2) mtSeedC = mtSeedD := by decide

set_option maxRecDepth 40000 in
theorem mtSeedE_eval :
    (List.range 311).foldl (fun m k => mtPass2Step 2 m (312 + k)) mtSeedD = mtSeedE := by
  decide

theorem mtSeedF_eval : mtSetWord mtSeedE 0 2147483648 = mtSeedF := by decide

set_option maxRecDepth 40000 in
theorem mtSeedT1_eval : (List.range 312).foldl mtTwistStep mtSeedF = mtSeedT1 := by decide

set_option maxRecDepth 40000 in
theorem mtSeedT_eval :
    (List.range 312).foldl (fun m k => mtTwistStep m (312 + k)) mtSeedT1 = mtSeedT := by
  decide

/-- The seeded state of `random.Random(20251012)`. -/
theorem mtInit_20251012 : mtInitByArray (natToKey 20251012) = mtSeedF := by
  have hkey : natToKey 20251012 = [20251012] := by decide
  have h1 : (List.range 624).foldl (mtPass1Step [20251012] 1) (mtInitGenrand 19650218)
      = mtSeedC := by
    rw [show (624 : Nat) = 312 + 312 from rfl, foldl_range_split, mtSeedA_eval,
      mtSeedB_eval, mtSeedC_eval]
  have h2 : (List.range 623).foldl (mtPass2Step 2) mtSeedC = mtSeedE := by
    rw [show (623 : Nat) = 312 + 311 from rfl, foldl_range_split, mtSeedD_eval, mtSeedE_eval]
  rw [hkey]
  show mtSetWord ((List.range 623).foldl (mtPass2Step 2)
      ((List.range 624).foldl (mtPass1Step [20251012] 1) (mtInitGenrand 19650218))) 0
      2147483648 = mtSeedF
  rw [h1, h2, mtSeedF_eval]

/-- The first twist of `random.Random(20251012)`. -/
theorem mtTwist_20251012 : mtTwist mtSeedF = mtSeedT := by
  show (List.range 624).foldl mtTwistStep mtSeedF = mtSeedT
  rw [show (624 : Nat) = 312 + 312 from rfl, foldl_range_split, mtSeedT1_eval, mtSeedT_eval]

set_option maxRecDepth 4000 in
theorem mtNext_20251012_init :
    mtNext ⟨mtSeedF, 624⟩ = (2223489112, ⟨mtSeedT, 1⟩) := by
  show (if (624 : Nat) ≥ 624 then
          (mtTemper (mtWord (mtTwist mtSeedF) 0), MT.mk (mtTwist mtSeedF) 1)
        else (mtTemper (mtWord mtSeedF 624), MT.mk mtSeedF 625))
      = (2223489112, ⟨mtSeedT, 1⟩)
  rw [if_pos (by decide : (624 : Nat) ≥ 624), mtTwist_20251012]
  decide

set_option maxRecDepth 200000 in
theorem pyGetrandbits_f624 : pyGetrandbits ⟨mtSeedF, 624⟩ 2 = (2, ⟨mtSeedT, 1⟩) := by
  show ((mtNext ⟨mtSeedF, 624⟩).1 >>> 30, (mtNext ⟨mtSeedF, 624⟩).2) = (2, ⟨mtSeedT, 1⟩)
  rw [mtNext_20251012_init]
  decide

theorem pyGetrandbits_t1 : pyGetrandbits ⟨mtSeedT, 1⟩ 2 = (1, ⟨mtSeedT, 2⟩) := by decide

theorem pyRandbelow_succ (f : Nat) (g : MT) (n : Nat) :
    pyRandbelow (f + 1) g n
      = (if (pyGetrandbits g (pyBitLength n)).1 < n then pyGetrandbits g (pyBitLength n)
         else pyRandbelow f (pyGetrandbits g (pyBitLength n)).2 n) := rfl

set_option maxRecDepth 4000 in
theorem pyRandbelow_20251012_2 :
    pyRandbelow 1000 ⟨mtSeedF, 624⟩ 2 = (1, ⟨mtSeedT, 2⟩) := by
  rw [show (1000 : Nat) = 999 + 1 from rfl, pyRandbelow_succ,
      (by decide : pyBitLength 2 = 2), pyGetrandbits_f624]
  show (if (2 : Nat) < 2 then ((2 : Nat), MT.mk mtSeedT 1)
        else pyRandbelow 999 ⟨mtSeedT, 1⟩ 2) = (1, ⟨mtSeedT, 2⟩)
  rw [if_neg (by decide), show (999 : Nat) = 998 + 1 from rfl, pyRandbelow_succ,
      (by decide : pyBitLength 2 = 2), pyGetrandbits_t1]
  show (if (1 : Nat) < 2 then ((1 : Nat), MT.mk mtSeedT 2)
        else pyRandbelow 998 ⟨mtSeedT, 2⟩ 2) = (1, ⟨mtSeedT, 2⟩)
  rw [if_pos (by decide)]

set_option maxRecDepth 4000 in
theorem pyShuffle_20251012_pair {α : Type} (a b : α) :
    pyShuffle 20251012 [a, b] = [a, b] := by
  have hini : mtInit 20251012 = ⟨mtSeedF, 624⟩ := by
    show MT.mk (mtInitByArray (natToKey 20251012)) 624 = MT.mk mtSeedF 624
    rw [mtInit_20251012]
  simp only [pyShuffle, List.length_cons, List.length_nil, hini]
  norm_num
  rw [show List.range 1 = [0] from rfl]
  simp only [List.foldl_cons, List.foldl_nil, pyShuffleStep]
  norm_num
  rw [pyRandbelow_20251012_2]
  rfl

/-! ## `catalog.fetch_random_pool_for_deciles` -/

/-- `catalog.fetch_random_pool_for_deciles`: fetch up to
`max(pool_size * 3, pool_size)` rows, optionally shuffle the whole
intermediate list with the given seed, and truncate to `pool_size`. -/
def fetch_random_pool_for_deciles (store : Query → List CharityRow)
    (deciles : List String) (state : Option String) (pool_size : Int)
    (seed : Option Nat) : List CharityRow × List Query :=
  if pool_size ≤ 0 then ([], [])
  else
    let large_limit := max (pool_size * 3) pool_size
    let fetched := fetch_by_deciles store deciles state large_limit
    let results :=
      match seed with
      | some sd => pyShuffle sd fetched.1
      | none => fetched.1
    (results.take pool_size.toNat, fetched.2)

/-- **C6.** With a seed, the output is the first `pool_size` elements of the
seeded shuffle of the entire fetched list (fetched with limit
`max(pool_size * 3, pool_size)`); without a seed, the fetched order is kept and
truncated. -/
theorem fetch_random_pool_seed_behaviour (store : Query → List CharityRow)
    (deciles : List String) (state : Option String) (pool_size : Int) (sd : Nat)
    (hp : 0 < pool_size) :
    (fetch_random_pool_for_deciles store deciles state pool_size (some sd)).1
      = (pyShuffle sd
          (fetch_by_deciles store deciles state (max (pool_size * 3) pool_size)).1).take
          pool_size.toNat ∧
    (fetch_random_pool_for_deciles store deciles state pool_size none).1
      = (fetch_by_deciles store deciles state (max (pool_size * 3) pool_size)).1.take
          pool_size.toNat := by
  have hneg : ¬ pool_size ≤ 0 := by omega
  constructor <;> · unfold fetch_random_pool_for_deciles; rw [if_neg hneg]

/-- Witness for C6 at `pool_size = 2`, seed `7`, a two-row store. -/
theorem fetch_random_pool_seed_behaviour_witness :
    (0 : Int) < 2 ∧
    (fetch_random_pool_for_deciles
        (fun _ => [{ ein := "1", name := "A", city := none, state := none,
                     ntee_code := "X20", ntee_major := "X" }])
        ["X20"] none 2 (some 7)).1
      = (pyShuffle 7
          (fetch_by_deciles
            (fun _ => [{ ein := "1", name := "A", city := none, state := none,
                         ntee_code := "X20", ntee_major := "X" }])
            ["X20"] none (max (2 * 3) 2)).1).take (Int.toNat 2) :=
  ⟨by norm_num,
   (fetch_random_pool_seed_behaviour
     (fun _ => [{ ein := "1", name := "A", city := none, state := none,
                  ntee_code := "X20", ntee_major := "X" }])
     ["X20"] none 2 7 (by norm_num)).1⟩

/-! ## `app.group_charities_by_decile` and featured-pool normalization -/

/-- `row.get("ntee_code") or row.get("nteeCode")`: the decile a row is filed
under; a falsy (empty) decile makes the row be skipped.  (`CharityRow` has no
`"nteeCode"` key, so the second lookup always gives `None`.) -/
def rowDecile (row : CharityRow) : Option String :=
  if row.ntee_code ≠ "" then some row.ntee_code else none

/-- The `location` string built from a row's city and state
(`"city, state"`, or `"state"`, or `None`). -/
def rowLocation (row : CharityRow) : Option String :=
  let city := row.city.getD ""
  let state := row.state.getD ""
  if city ≠ "" && state ≠ "" then some (city ++ ", " ++ state)
  else if state ≠ "" then some state
  else none

/-- The normalized charity dict built for each kept row. -/
def normalizeRowCharity (row : CharityRow) (decile : String) : Charity :=
  { name := some (if row.name ≠ "" then row.name else "Unknown"),
    ein := some row.ein,
    profileUrl := none,
    websiteUrl := none,
    nteeCode := some decile,
    location := rowLocation row,
    description := none }

/-- `grouped.setdefault(decile, []).append(normalized)` on an insertion-ordered
dict. -/
def insertGrouped (g : List (String × List Charity)) (k : String) (c : Charity) :
    List (String × List Charity) :=
  match g with
  | [] => [(k, [c])]
  | (k', l) :: rest =>
    if k' = k then (k', l ++ [c]) :: rest else (k', l) :: insertGrouped rest k c

/-- `app.group_charities_by_decile`. -/
def group_charities_by_decile (rows : List CharityRow) :
    List (String × List Charity) :=
  rows.foldl
    (fun g row =>
      match rowDecile row with
      | none => g
      | some d => insertGrouped g d (normalizeRowCharity row d))
    []

/-- The normalization loop of `app.get_daily_featured_pool` (same row-to-dict
shape, flat list). -/
def normalizeRows (rows : List CharityRow) : List Charity :=
  rows.filterMap (fun row => (rowDecile row).map (normalizeRowCharity row))

/-! ## `app.fetch_every_nonprofit_detail` and the process-wide cache -/

/-- The `_EVERY_CACHE` dictionary: identifier to stored value, where a stored
`none` is a cached negative resolution. -/
abbrev Cache : Type := List (String × Option Detail)

/-- Python `_EVERY_CACHE.get(ein)` before the join with `is not None`:
`none` when the key is missing, `some v` when `v` is stored. -/
def cacheGet (cache : Cache) (ein : String) : Option (Option Detail) :=
  (List.find? (fun p => p.1 = ein) cache).map Prod.snd

/-- Python `_EVERY_CACHE[ein] = v`. -/
def cacheSet (cache : Cache) (ein : String) (v : Option Detail) : Cache :=
  match cache with
  | [] => [(ein, v)]
  | (k, w) :: rest =>
    if k = ein then (k, v) :: rest else (k, w) :: cacheSet rest ein v

/-- `app.fetch_every_nonprofit_detail` with the HTTP layer as an oracle
(`net ein = none` models `requests.get` raising `RequestException`).  Returns
the result, the updated cache, and whether a network request was issued.
`get_api_key` is assumed configured: every path the claims quantify over is
reached only with a key present.  Note the source's read-back is
`cached = _EVERY_CACHE.get(ein); if cached is not None: return cached`, which
collapses a stored `None` and a missing key into the same case — modelled by
the `Option.join`. -/
def fetch_every_nonprofit_detail (net : String → Option EveryResp) (cache : Cache)
    (ein : String) : Option Detail × Cache × Bool :=
  if ein = "" then (none, cache, false)
  else
    match (cacheGet cache ein).join with
    | some d => (some d, cache, false)
    | none =>
      match net ein with
      | none => (none, cacheSet cache ein none, true)
      | some resp =>
        if resp.status ≥ 400 then (none, cacheSet cache ein none, true)
        else
          match resp.body with
          | none => (none, cacheSet cache ein none, true)
          | some nonprofit =>
            match nonprofit with
            | none => (none, cacheSet cache ein none, true)
            | some d => (some d, cacheSet cache ein (some d), true)

/-- **C1 (code bug).** First call on a failing identifier: the negative result
is stored (`_EVERY_CACHE[ein] = None`) and a network fetch happened (first
conjunct).  Second call on the very same cache: the stored negative is
indistinguishable from a cache miss under `cache.get(ein) is not None`, so the
call performs ANOTHER network fetch (final `true` of the second conjunct)
instead of returning the cached negative without network activity. -/
theorem fetch_every_negative_refetches :
    fetch_every_nonprofit_detail (fun _ => none) [] "12-3456789"
        = (none, [("12-3456789", none)], true) ∧
    fetch_every_nonprofit_detail (fun _ => none) [("12-3456789", none)] "12-3456789"
        = (none, [("12-3456789", none)], true) := by
  constructor <;> rfl

/-! ## The enrichment merge (`app.enrich_charities_with_every` loop body) -/

/-- `detail.get("profileUrl") or detail.get("profile") or detail.get("url")`. -/
def detailProfileUrl (d : Detail) : Option String :=
  pyOr (pyOr d.profileUrl d.profile) d.url

/-- `detail.get("websiteUrl") or detail.get("website")`. -/
def detailWebsiteUrl (d : Detail) : Option String := pyOr d.websiteUrl d.website

/-- `detail.get("description") or detail.get("mission")`. -/
def detailDescription (d : Detail) : Option String := pyOr d.description d.mission

/-- `detail.get("location") or detail.get("locationName")`. -/
def detailLocation (d : Detail) : Option String := pyOr d.location d.locationName

/-- The merge of one resolved detail onto one charity dict: the conditional
field writes at the end of the `enrich_charities_with_every` loop body. -/
def applyDetail (d : Detail) (c : Charity) : Charity :=
  let profile_url := detailProfileUrl d
  let website_url := detailWebsiteUrl d
  let description := detailDescription d
  let location := pyOr (detailLocation d) c.location
  let ntee_code := pyOr d.nteeCode c.nteeCode
  let c1 := if pyTruthy profile_url then { c with profileUrl := profile_url } else c
  let c2 := if pyTruthy website_url then { c1 with websiteUrl := website_url } else c1
  let c3 := if pyTruthy description then { c2 with description := description } else c2
  let c4 := if pyTruthy location then { c3 with location := location } else c3
  if pyTruthy ntee_code then { c4 with nteeCode := ntee_code } else c4

theorem pyOr_pos {a b : Option String} (h : pyTruthy a = true) : pyOr a b = a := by
  simp [pyOr, h]

theorem pyOr_neg {a b : Option String} (h : pyTruthy a = false) : pyOr a b = b := by
  simp [pyOr, h]

theorem applyDetail_eq (d : Detail) (c : Charity) :
    applyDetail d c =
      { name := c.name, ein := c.ein,
        profileUrl :=
          if pyTruthy (detailProfileUrl d) then detailProfileUrl d else c.profileUrl,
        websiteUrl :=
          if pyTruthy (detailWebsiteUrl d) then detailWebsiteUrl d else c.websiteUrl,
        nteeCode :=
          if pyTruthy (pyOr d.nteeCode c.nteeCode) then pyOr d.nteeCode c.nteeCode
          else c.nteeCode,
        location :=
          if pyTruthy (pyOr (detailLocation d) c.location) then
            pyOr (detailLocation d) c.location
          else c.location,
        description :=
          if pyTruthy (detailDescription d) then detailDescription d
          else c.description } := by
  unfold applyDetail
  dsimp only
  split_ifs <;> rfl

theorem pyOr_fallback_ite (a b : Option String) :
    (if pyTruthy (pyOr a b) then pyOr a b else b) = (if pyTruthy a then a else b) := by
  cases ha : pyTruthy a
  · rw [pyOr_neg ha]
    split <;> rfl
  · rw [pyOr_pos ha, ha]

/-- **C8.** Each of the five enrichable fields is overwritten exactly when the
detail supplies a truthy value for it, and keeps its previous value otherwise
(in particular it is never nulled or emptied); `name` and `ein` are untouched. -/
theorem applyDetail_merge_contract (d : Detail) (c : Charity) :
    (applyDetail d c).profileUrl
        = (if pyTruthy (detailProfileUrl d) then detailProfileUrl d else c.profileUrl) ∧
    (applyDetail d c).websiteUrl
        = (if pyTruthy (detailWebsiteUrl d) then detailWebsiteUrl d else c.websiteUrl) ∧
    (applyDetail d c).description
        = (if pyTruthy (detailDescription d) then detailDescription d else c.description) ∧
    (applyDetail d c).location
        = (if pyTruthy (detailLocation d) then detailLocation d else c.location) ∧
    (applyDetail d c).nteeCode
        = (if pyTruthy d.nteeCode then d.nteeCode else c.nteeCode) ∧
    (applyDetail d c).name = c.name ∧
    (applyDetail d c).ein = c.ein := by
  rw [applyDetail_eq]
  exact ⟨rfl, rfl, rfl, pyOr_fallback_ite (detailLocation d) c.location,
    pyOr_fallback_ite d.nteeCode c.nteeCode, rfl, rfl⟩

/-- One iteration of the `enrich_charities_with_every` loop: skip falsy
identifiers, fetch (through the cache), skip falsy details, else merge. -/
def enrichCharity (net : String → Option EveryResp) (cache : Cache) (c : Charity) :
    Charity × Cache :=
  if pyTruthy c.ein then
    let r := fetch_every_nonprofit_detail net cache (c.ein.getD "")
    match r.1 with
    | none => (c, r.2.1)
    | some d => (applyDetail d c, r.2.1)
  else (c, cache)

/-- `app.enrich_charities_with_every`: enrich each list entry in order (the
source mutates the dicts in place; here the updated list is returned), the
process-wide cache threaded through. -/
def enrich_charities_with_every (net : String → Option EveryResp) :
    List Charity → Cache → List Charity × Cache
  | [], cache => ([], cache)
  | c :: rest, cache =>
    let r := enrichCharity net cache c
    let rr := enrich_charities_with_every net rest r.2
    (r.1 :: rr.1, rr.2)

/-! ## `app.round_robin_select`

The algorithm state: the selected list, the set of seen dedup identities, and
the per-category cursor dictionary.  The source appends the bare charity dict
to `selected`; here each selected entry is paired with the category it was
drawn from (the loop variable `code` at the moment of the append), and
`round_robin_select` projects the pair away, so the specification can speak
about the identity under which an entry was selected. -/

/-- `charity.get("ein") or charity.get("profileUrl") or f"{charity.get('name')}-{code}"`. -/
def uniqueId (code : String) (c : Charity) : String :=
  if pyTruthy c.ein then c.ein.getD ""
  else if pyTruthy c.profileUrl then c.profileUrl.getD ""
  else pyStr c.name ++ "-" ++ code

/-- `charities_by_code.get(code, [])`. -/
def dictGet (pools : List (String × List Charity)) (code : String) : List Charity :=
  ((pools.find? (fun p => p.1 = code)).map Prod.snd).getD []

structure RRState where
  selected : List (String × Charity)
  seen : List String
  indices : String → Nat

/-- The inner `while idx < len(charities)` scan: advance over candidates whose
identity is falsy or already seen; stop at the first fresh candidate, giving
it, its identity and the cursor value just past it. -/
def rrScan (seen : List String) (code : String) :
    List Charity → Nat → Option (Charity × String × Nat)
  | [], _ => none
  | c :: rest, idx =>
    let uid := uniqueId code c
    if uid = "" ∨ uid ∈ seen then rrScan seen code rest (idx + 1)
    else some (c, uid, idx + 1)

/-- One pass of the `for code in codes` loop: each category (in order) takes at
most one fresh candidate; stop early when `limit` is reached.  Returns the new
state and the `progressed` flag. -/
def rrPass (pools : List (String × List Charity)) (limit : Nat) :
    List String → RRState → Bool → RRState × Bool
  | [], s, progressed => (s, progressed)
  | code :: rest, s, progressed =>
    let charities := dictGet pools code
    let idx := s.indices code
    match rrScan s.seen code (charities.drop idx) idx with
    | some r =>
      let s' : RRState :=
        { selected := s.selected ++ [(code, r.1)],
          seen := s.seen ++ [r.2.1],
          indices := fun c => if c = code then r.2.2 else s.indices c }
      if limit ≤ s'.selected.length then (s', true)
      else rrPass pools limit rest s' true
    | none =>
      if limit ≤ s.selected.length then (s, progressed)
      else rrPass pools limit rest s progressed

/-- The outer `while len(selected) < limit` loop.  Each pass that makes
progress appends at least one entry, so `limit + 1` rounds of fuel are
enough to reach the loop's own exit conditions; the lemmas below only ever
evaluate it with that fuel. -/
def rrLoop (pools : List (String × List Charity)) (limit : Nat)
    (codes : List String) : Nat → RRState → RRState
  | 0, s => s
  | fuel + 1, s =>
    if s.selected.length < limit then
      let r := rrPass pools limit codes s false
      if r.2 then rrLoop pools limit codes fuel r.1 else r.1
    else s

/-- `codes = [code for code, charities in charities_by_code.items() if charities]`. -/
def rrCodes (pools : List (String × List Charity)) : List String :=
  (pools.filter (fun p => ¬ p.2.isEmpty)).map Prod.fst

def rrInit : RRState := ⟨[], [], fun _ => 0⟩

/-- The final state of the round-robin loop. -/
def rrFinal (pools : List (String × List Charity)) (limit : Nat) : RRState :=
  rrLoop pools limit (rrCodes pools) (limit + 1) rrInit

/-- The selected entries, each paired with the category it was drawn from. -/
def rrSelectP (pools : List (String × List Charity)) (limit : Nat) :
    List (String × Charity) :=
  (rrFinal pools limit).selected

/-- `app.round_robin_select`. -/
def round_robin_select (pools : List (String × List Charity)) (limit : Nat) :
    List Charity :=
  if (rrCodes pools).isEmpty then [] else (rrSelectP pools limit).map Prod.snd

/-- All dedup identities of the pool candidates (with multiplicity). -/
def poolIds (pools : List (String × List Charity)) : List String :=
  pools.flatMap (fun p => p.2.map (uniqueId p.1))

theorem uniqueId_ne_empty (code : String) (c : Charity) : uniqueId code c ≠ "" := by
  unfold uniqueId
  split
  · rename_i h
    match hc : c.ein with
    | none => rw [hc] at h; simp [pyTruthy] at h
    | some s =>
      rw [hc] at h
      simp [pyTruthy] at h
      simpa [hc] using h
  · split
    · rename_i h
      match hc : c.profileUrl with
      | none => rw [hc] at h; simp [pyTruthy] at h
      | some s =>
        rw [hc] at h
        simp [pyTruthy] at h
        simpa [hc] using h
    · intro h
      have := congrArg String.length h
      simp [String.length_append] at this
      exact absurd this.1.2 (by decide)

theorem mem_of_dictGet {pools : List (String × List Charity)} {code : String}
    {c : Charity} (h : c ∈ dictGet pools code) :
    ∃ l, (code, l) ∈ pools ∧ c ∈ l := by
  unfold dictGet at h
  match hf : List.find? (fun p => p.1 = code) pools with
  | none => rw [hf] at h; simp at h
  | some p =>
    rw [hf] at h
    simp at h
    have hmem := List.mem_of_find?_eq_some hf
    have hcode := List.find?_some hf
    simp at hcode
    exact ⟨p.2, by rw [← hcode]; exact hmem, h⟩

theorem uniqueId_mem_poolIds {pools : List (String × List Charity)} {code : String}
    {c : Charity} (h : c ∈ dictGet pools code) :
    uniqueId code c ∈ poolIds pools := by
  obtain ⟨l, hl, hc⟩ := mem_of_dictGet h
  unfold poolIds
  rw [List.mem_flatMap]
  exact ⟨(code, l), hl, List.mem_map_of_mem _ hc⟩

theorem dictGet_of_mem {pools : List (String × List Charity)} {code : String}
    {l : List Charity} (hk : (pools.map Prod.fst).Nodup) (h : (code, l) ∈ pools) :
    dictGet pools code = l := by
  induction pools with
  | nil => simp at h
  | cons p rest ih =>
    have hk1 : p.1 ∉ rest.map Prod.fst := (List.nodup_cons.mp (by simpa using hk)).1
    have hk2 : (rest.map Prod.fst).Nodup := (List.nodup_cons.mp (by simpa using hk)).2
    rcases List.mem_cons.mp h with heq | hmem
    · rw [← heq]
      simp only [dictGet, List.find?]
      simp
    · have hne : p.1 ≠ code := by
        intro hp
        apply hk1
        rw [hp]
        exact List.mem_map_of_mem Prod.fst hmem
      have ihr := ih hk2 hmem
      simp only [dictGet] at ihr ⊢
      rw [List.find?_cons_of_neg _ (by simp [hne])]
      exact ihr

theorem rrScan_none_iff (seen : List String) (code : String) :
    ∀ (l : List Charity) (i : Nat),
      rrScan seen code l i = none ↔ ∀ c ∈ l, uniqueId code c ∈ seen := by
  intro l
  induction l with
  | nil => intro i; simp [rrScan]
  | cons c rest ih =>
    intro i
    simp only [rrScan]
    by_cases h : uniqueId code c = "" ∨ uniqueId code c ∈ seen
    · rw [if_pos h]
      rcases h with h | h
      · exact absurd h (uniqueId_ne_empty code c)
      · rw [ih (i + 1)]
        constructor
        · intro hall x hx
          rcases List.mem_cons.mp hx with hx | hx
          · rw [hx]; exact h
          · exact hall x hx
        · intro hall x hx
          exact hall x (List.mem_cons_of_mem c hx)
    · rw [if_neg h]
      constructor
      · intro hs; cases hs
      · intro hall
        exact absurd (Or.inr (hall c (List.mem_cons_self c rest))) h

theorem rrScan_some {seen : List String} {code : String} :
    ∀ {l : List Charity} {i : Nat} {c : Charity} {uid : String} {i' : Nat},
      rrScan seen code l i = some (c, uid, i') →
      uid = uniqueId code c ∧ uid ∉ seen ∧
        ∃ pre post, l = pre ++ c :: post ∧ i' = i + pre.length + 1 ∧
          ∀ x ∈ pre, uniqueId code x ∈ seen := by
  intro l
  induction l with
  | nil => intro i c uid i' h; simp [rrScan] at h
  | cons c0 rest ih =>
    intro i c uid i' h
    simp only [rrScan] at h
    by_cases hc : uniqueId code c0 = "" ∨ uniqueId code c0 ∈ seen
    · rw [if_pos hc] at h
      obtain ⟨h1, h2, pre, post, hl, hi, hpre⟩ := ih h
      refine ⟨h1, h2, c0 :: pre, post, by rw [hl]; rfl, by simp [hi]; omega, ?_⟩
      intro x hx
      rcases List.mem_cons.mp hx with hx | hx
      · rw [hx]
        rcases hc with hc | hc
        · exact absurd hc (uniqueId_ne_empty code c0)
        · exact hc
      · exact hpre x hx
    · rw [if_neg hc] at h
      injection h with h
      injection h with hcc h
      injection h with huid hi
      refine ⟨?_, ?_, [], rest, ?_, ?_, by simp⟩
      · rw [← huid, ← hcc]
      · rw [← huid]
        intro hmem
        exact hc (Or.inr hmem)
      · rw [hcc]
        rfl
      · simp
        omega

/-- The loop invariant of `round_robin_select`: the seen list records the
identities of the selected entries in order; identities are unique and come
from the pools; every candidate strictly before a cursor has a seen identity;
cursors stay in range; the result is bounded by `limit`; and every selected
entry really is a candidate of the category it was drawn from. -/
structure RRInv (pools : List (String × List Charity)) (limit : Nat)
    (s : RRState) : Prop where
  seen_eq : s.seen = s.selected.map (fun p => uniqueId p.1 p.2)
  seen_nodup : s.seen.Nodup
  seen_sub : ∀ u ∈ s.seen, u ∈ poolIds pools
  take_seen : ∀ code : String, ∀ c ∈ (dictGet pools code).take (s.indices code),
    uniqueId code c ∈ s.seen
  idx_le : ∀ code : String, s.indices code ≤ (dictGet pools code).length
  len_le : s.selected.length ≤ limit
  sel_mem : ∀ p ∈ s.selected, p.2 ∈ dictGet pools p.1

theorem RRInv_append {pools : List (String × List Charity)} {limit : Nat}
    {s : RRState} (inv : RRInv pools limit s) {code : String}
    {c : Charity} {uid : String} {i' : Nat}
    (hscan : rrScan s.seen code ((dictGet pools code).drop (s.indices code))
        (s.indices code) = some (c, uid, i'))
    (hlen : s.selected.length < limit) :
    RRInv pools limit
      { selected := s.selected ++ [(code, c)],
        seen := s.seen ++ [uid],
        indices := fun x => if x = code then i' else s.indices x } := by
  obtain ⟨huid, hnotseen, pre, post, hdrop, hi, hpre⟩ := rrScan_some hscan
  have hcmem : c ∈ dictGet pools code := by
    apply List.drop_subset (s.indices code)
    rw [hdrop]
    simp
  have hlendrop := congrArg List.length hdrop
  rw [List.length_drop, List.length_append, List.length_cons] at hlendrop
  have hi'le : i' ≤ (dictGet pools code).length := by
    have := inv.idx_le code
    omega
  have htake : (dictGet pools code).take i'
      = (dictGet pools code).take (s.indices code) ++ (pre ++ [c]) := by
    rw [hi, Nat.add_assoc, List.take_add, hdrop]
    congr 1
    rw [show pre ++ c :: post = (pre ++ [c]) ++ post by simp]
    exact List.take_left' (by simp)
  constructor
  · simp [inv.seen_eq, huid]
  · refine List.Nodup.append inv.seen_nodup (List.nodup_singleton uid) ?_
    intro x hx hx'
    rw [List.mem_singleton.mp hx'] at hx
    exact absurd hx hnotseen
  · intro u hu
    rcases List.mem_append.mp hu with hu | hu
    · exact inv.seen_sub u hu
    · rw [List.mem_singleton.mp hu, huid]
      exact uniqueId_mem_poolIds hcmem
  · intro code' x hx
    dsimp only at hx
    by_cases hcc : code' = code
    · subst hcc
      rw [if_pos rfl] at hx
      rw [htake] at hx
      rcases List.mem_append.mp hx with hx | hx
      · exact List.mem_append_left _ (inv.take_seen code' x hx)
      · rcases List.mem_append.mp hx with hx | hx
        · exact List.mem_append_left _ (hpre x hx)
        · rw [List.mem_singleton.mp hx, ← huid]
          simp
    · rw [if_neg hcc] at hx
      exact List.mem_append_left _ (inv.take_seen code' x hx)
  · intro code'
    by_cases hcc : code' = code
    · subst hcc; simpa using hi'le
    · simpa [hcc] using inv.idx_le code'
  · simpa using hlen
  · intro p hp
    rcases List.mem_append.mp hp with hp | hp
    · exact inv.sel_mem p hp
    · rw [List.mem_singleton.mp hp]
      exact hcmem

theorem rrPass_spec (pools : List (String × List Charity)) (limit : Nat) :
    ∀ (cs : List String) (s : RRState) (prog : Bool),
      RRInv pools limit s → s.selected.length < limit →
      RRInv pools limit (rrPass pools limit cs s prog).1 ∧
      s.selected.length ≤ (rrPass pools limit cs s prog).1.selected.length ∧
      (∀ u ∈ s.seen, u ∈ (rrPass pools limit cs s prog).1.seen) ∧
      ((rrPass pools limit cs s prog).2 = false →
        (rrPass pools limit cs s prog).1 = s ∧ prog = false ∧
        ∀ code ∈ cs, ∀ c ∈ dictGet pools code, uniqueId code c ∈ s.seen) ∧
      ((rrPass pools limit cs s prog).2 = true → prog = true ∨
        s.selected.length < (rrPass pools limit cs s prog).1.selected.length) := by
  intro cs
  induction cs with
  | nil =>
    intro s prog inv hlen
    refine ⟨inv, Nat.le_refl _, fun u hu => hu, ?_, ?_⟩
    · intro hf
      exact ⟨rfl, hf, by simp⟩
    · intro ht
      exact Or.inl ht
  | cons code rest ih =>
    intro s prog inv hlen
    cases hscan : rrScan s.seen code ((dictGet pools code).drop (s.indices code))
        (s.indices code) with
    | none =>
      have hall : ∀ c ∈ dictGet pools code, uniqueId code c ∈ s.seen := by
        intro c hc
        have hsplit := List.take_append_drop (s.indices code) (dictGet pools code)
        rw [← hsplit] at hc
        rcases List.mem_append.mp hc with hc | hc
        · exact inv.take_seen code c hc
        · exact (rrScan_none_iff s.seen code _ (s.indices code)).mp hscan c hc
      have hred : rrPass pools limit (code :: rest) s prog
          = rrPass pools limit rest s prog := by
        simp only [rrPass, hscan]
        rw [if_neg (by omega)]
      rw [hred]
      obtain ⟨i1, i2, i3, i4, i5⟩ := ih s prog inv hlen
      refine ⟨i1, i2, i3, ?_, i5⟩
      intro hf
      obtain ⟨e1, e2, e3⟩ := i4 hf
      refine ⟨e1, e2, ?_⟩
      intro code' hcode' c hc
      rcases List.mem_cons.mp hcode' with h | h
      · subst h; exact hall c hc
      · exact e3 code' h c hc
    | some r =>
      obtain ⟨c, uid, i'⟩ := r
      have hinv' := RRInv_append inv hscan hlen
      set s' : RRState :=
        { selected := s.selected ++ [(code, c)],
          seen := s.seen ++ [uid],
          indices := fun x => if x = code then i' else s.indices x } with hs'
      have hlen' : s'.selected.length = s.selected.length + 1 := by
        simp [hs']
      by_cases hstop : limit ≤ s'.selected.length
      · have hred : rrPass pools limit (code :: rest) s prog = (s', true) := by
          simp only [rrPass, hscan]
          rw [if_pos hstop]
        rw [hred]
        have happ : (s.selected ++ [(code, c)]).length = s.selected.length + 1 := by simp
        refine ⟨hinv', by dsimp only; omega, ?_, ?_, ?_⟩
        · intro u hu
          dsimp only
          simp [hs']
          exact Or.inl hu
        · intro hf
          simp at hf
        · intro _
          right
          dsimp only
          omega
      · have hred : rrPass pools limit (code :: rest) s prog
            = rrPass pools limit rest s' true := by
          simp only [rrPass, hscan]
          rw [if_neg hstop]
        rw [hred]
        have hlt' : s'.selected.length < limit := by omega
        obtain ⟨i1, i2, i3, i4, i5⟩ := ih s' true hinv' hlt'
        refine ⟨i1, by have := i2; dsimp only at this ⊢; omega, ?_, ?_, ?_⟩
        · intro u hu
          apply i3
          simp [hs']
          exact Or.inl hu
        · intro hf
          obtain ⟨_, e2, _⟩ := i4 hf
          simp at e2
        · intro _
          right
          have := i2
          dsimp only at this ⊢
          omega

theorem rrLoop_spec (pools : List (String × List Charity)) (limit : Nat)
    (codes : List String) :
    ∀ (fuel : Nat) (s : RRState),
      RRInv pools limit s → limit + 1 ≤ fuel + s.selected.length →
      RRInv pools limit (rrLoop pools limit codes fuel s) ∧
      ((rrLoop pools limit codes fuel s).selected.length = limit ∨
        ∀ code ∈ codes, ∀ c ∈ dictGet pools code,
          uniqueId code c ∈ (rrLoop pools limit codes fuel s).seen) := by
  intro fuel
  induction fuel with
  | zero =>
    intro s inv hfuel
    have := inv.len_le
    omega
  | succ f ih =>
    intro s inv hfuel
    by_cases hlen : s.selected.length < limit
    · have hred : rrLoop pools limit codes (f + 1) s
          = if (rrPass pools limit codes s false).2 then
              rrLoop pools limit codes f (rrPass pools limit codes s false).1
            else (rrPass pools limit codes s false).1 := by
        simp only [rrLoop]
        rw [if_pos hlen]
      rw [hred]
      obtain ⟨i1, i2, i3, i4, i5⟩ := rrPass_spec pools limit codes s false inv hlen
      cases hp : (rrPass pools limit codes s false).2 with
      | false =>
        rw [if_neg (by simp [hp])]
        obtain ⟨e1, _, e3⟩ := i4 hp
        refine ⟨i1, Or.inr ?_⟩
        intro code hcode c hc
        rw [e1]
        exact e3 code hcode c hc
      | true =>
        rw [if_pos (by simp [hp])]
        apply ih
        · exact i1
        · rcases i5 hp with h | h
          · cases h
          · omega
    · have hred : rrLoop pools limit codes (f + 1) s = s := by
        simp only [rrLoop]
        rw [if_neg hlen]
      rw [hred]
      have := inv.len_le
      exact ⟨inv, Or.inl (by omega)⟩

theorem RRInv_init (pools : List (String × List Charity)) (limit : Nat) :
    RRInv pools limit rrInit := by
  constructor <;> simp [rrInit]

theorem subset_nodup_length_le {l m : List String} (hn : l.Nodup)
    (hs : ∀ x ∈ l, x ∈ m) : l.length ≤ m.dedup.length := by
  rw [← List.toFinset_card_of_nodup hn, ← List.card_toFinset]
  apply Finset.card_le_card
  intro x hx
  rw [List.mem_toFinset] at hx ⊢
  exact hs x hx

/-- **C2.** For a mapping from distinct category codes to non-empty candidate
lists and `limit > 0`: the result has length `min limit d` where `d` is the
number of distinct dedup identities among all candidates; the result is the
code-annotated selection with the codes projected away; and no two selected
entries share a dedup identity. -/
theorem round_robin_select_spec (pools : List (String × List Charity)) (limit : Nat)
    (hkeys : (pools.map Prod.fst).Nodup)
    (hne : ∀ p ∈ pools, p.2 ≠ [])
    (hlimit : 0 < limit) :
    (round_robin_select pools limit).length = min limit (poolIds pools).dedup.length ∧
    round_robin_select pools limit = (rrSelectP pools limit).map Prod.snd ∧
    ((rrSelectP pools limit).map (fun p => uniqueId p.1 p.2)).Nodup := by
  have hloop := rrLoop_spec pools limit (rrCodes pools) (limit + 1) rrInit
    (RRInv_init pools limit) (by simp [rrInit])
  have hfin : rrLoop pools limit (rrCodes pools) (limit + 1) rrInit
      = rrFinal pools limit := rfl
  rw [hfin] at hloop
  obtain ⟨inv, hdisj⟩ := hloop
  have hselp : rrSelectP pools limit = (rrFinal pools limit).selected := rfl
  have hseenlen : (rrFinal pools limit).seen.length = (rrSelectP pools limit).length := by
    rw [inv.seen_eq, hselp, List.length_map]
  have hproj : round_robin_select pools limit = (rrSelectP pools limit).map Prod.snd := by
    unfold round_robin_select
    by_cases hc : (rrCodes pools).isEmpty
    · rw [if_pos hc]
      have hpools : pools = [] := by
        cases hp : pools with
        | nil => rfl
        | cons p rest =>
          exfalso
          have hpn : p.2 ≠ [] := hne p (by rw [hp]; exact List.mem_cons_self p rest)
          rw [hp] at hc
          simp [rrCodes, List.filter_cons, hpn] at hc
      have hsel : (rrFinal pools limit).selected = [] := by
        rw [List.eq_nil_iff_forall_not_mem]
        intro p hp
        have := inv.sel_mem p hp
        rw [hpools] at this
        simp [dictGet, List.find?] at this
      rw [hselp, hsel]
      rfl
    · rw [if_neg hc]
  refine ⟨?_, hproj, ?_⟩
  · rw [hproj, List.length_map]
    rcases hdisj with hlen | hall
    · rw [hselp, hlen]
      have hge : limit ≤ (poolIds pools).dedup.length := by
        have := subset_nodup_length_le inv.seen_nodup inv.seen_sub
        rw [hseenlen, hselp, hlen] at this
        exact this
      omega
    · have hsub : ∀ x ∈ poolIds pools, x ∈ (rrFinal pools limit).seen := by
        intro x hx
        rw [poolIds, List.mem_flatMap] at hx
        obtain ⟨p, hp, hx⟩ := hx
        rw [List.mem_map] at hx
        obtain ⟨c, hc, rfl⟩ := hx
        have hcode : p.1 ∈ rrCodes pools := by
          unfold rrCodes
          rw [List.mem_map]
          refine ⟨p, ?_, rfl⟩
          rw [List.mem_filter]
          refine ⟨hp, ?_⟩
          simpa [List.isEmpty_iff] using hne p hp
        have hdg : dictGet pools p.1 = p.2 := dictGet_of_mem hkeys hp
        exact hall p.1 hcode c (by rw [hdg]; exact hc)
      have hcard : (rrFinal pools limit).seen.length = (poolIds pools).dedup.length := by
        rw [← List.toFinset_card_of_nodup inv.seen_nodup, ← List.card_toFinset]
        congr 1
        apply Finset.Subset.antisymm
        · intro x hx
          rw [List.mem_toFinset] at hx ⊢
          exact inv.seen_sub x hx
        · intro x hx
          rw [List.mem_toFinset] at hx ⊢
          exact hsub x hx
      have hle : (rrSelectP pools limit).length ≤ limit := by
        rw [hselp]
        exact inv.len_le
      rw [← hseenlen, hcard] at hle ⊢
      rw [hcard] at hseenlen
      omega
  · rw [hselp, ← inv.seen_eq]
    exact inv.seen_nodup

/-- Witness pools for C2: two categories, three distinct identities. -/
def rrDemoPools : List (String × List Charity) :=
  [("A", [⟨some "a1", some "10", none, none, some "A", none, none⟩,
          ⟨some "a2", some "11", none, none, some "A", none, none⟩]),
   ("B", [⟨some "b1", some "12", none, none, some "B", none, none⟩])]

/-- Witness for C2 at `rrDemoPools` and `limit = 2`. -/
theorem round_robin_select_spec_witness :
    (round_robin_select rrDemoPools 2).length = min 2 (poolIds rrDemoPools).dedup.length ∧
    round_robin_select rrDemoPools 2 = (rrSelectP rrDemoPools 2).map Prod.snd ∧
    ((rrSelectP rrDemoPools 2).map (fun p => uniqueId p.1 p.2)).Nodup :=
  round_robin_select_spec rrDemoPools 2 (by decide) (by decide) (by decide)

/-- **C4.** For pools `{A: [a1, a2, a3], B: [b1]}` with four distinct
identities and `limit = 3`, the selection is exactly `[a1, b1, a2]`:
round-robin in category order, the exhausted `B` skipped while `A` continues. -/
theorem round_robin_select_interleaves :
    round_robin_select
        [("A", [⟨some "a1", some "20", none, none, some "A", none, none⟩,
                ⟨some "a2", some "21", none, none, some "A", none, none⟩,
                ⟨some "a3", some "22", none, none, some "A", none, none⟩]),
         ("B", [⟨some "b1", some "23", none, none, some "B", none, none⟩])] 3
      = [⟨some "a1", some "20", none, none, some "A", none, none⟩,
         ⟨some "b1", some "23", none, none, some "B", none, none⟩,
         ⟨some "a2", some "21", none, none, some "A", none, none⟩] := by
  decide

/-- Every entry of a round-robin selection is a candidate of one of the pools. -/
theorem round_robin_select_sources (pools : List (String × List Charity))
    (limit : Nat) :
    ∀ c ∈ round_robin_select pools limit, ∃ p ∈ pools, c ∈ p.2 := by
  intro c hc
  unfold round_robin_select at hc
  by_cases he : (rrCodes pools).isEmpty
  · rw [if_pos he] at hc
    cases hc
  · rw [if_neg he] at hc
    rw [List.mem_map] at hc
    obtain ⟨pc, hpc, rfl⟩ := hc
    have hloop := rrLoop_spec pools limit (rrCodes pools) (limit + 1) rrInit
      (RRInv_init pools limit) (by simp [rrInit])
    obtain ⟨inv, _⟩ := hloop
    have := inv.sel_mem pc hpc
    obtain ⟨l, hl, hcl⟩ := mem_of_dictGet this
    exact ⟨(pc.1, l), hl, hcl⟩

/-! ## The `/recommend` endpoint (`app.recommend_charities`) -/

structure SurveyRequest where
  generic_code : String
  location : String

structure CharityResponse where
  generic_code : String
  location : String
  ntee_codes : List String
  charities : List Charity
deriving DecidableEq

def MAX_CHARITIES : Nat := 15

/-- `app.recommend_charities`, with the catalog store and the enrichment
service as oracles.  The result is the HTTP outcome (`Except (status, detail)`
models `HTTPException` versus a 200 response), the updated enrichment cache,
and the log of catalog queries issued. -/
def recommend_charities (store : Query → List CharityRow)
    (net : String → Option EveryResp) (cache : Cache) (payload : SurveyRequest) :
    Except (Nat × String) CharityResponse × Cache × List Query :=
  let generic_code := pyUpper (pyStrip payload.generic_code)
  let location := pyStrip payload.location
  if generic_code = "" then
    (Except.error (400, "generic_code is required."), cache, [])
  else
    match lookupGeneric generic_code with
    | none => (Except.error (400, "Unknown generic code: " ++ generic_code), cache, [])
    | some target_deciles =>
      if target_deciles = [] then
        (Except.error (400, "Unknown generic code: " ++ generic_code), cache, [])
      else
        let state_code := normalize_state location
        let pool_size : Int := 15 * 4
        let fetched := fetch_random_pool_for_deciles store target_deciles
          (if state_code = "any" then none else some state_code) pool_size none
        if fetched.1 = [] then
          (Except.error
            (404, "No charities found in the database for these NTEE codes and location."),
           cache, fetched.2)
        else
          let charities_by_decile := group_charities_by_decile fetched.1
          let selected := round_robin_select charities_by_decile MAX_CHARITIES
          if selected = [] then
            (Except.error (404, "No charities could be selected after grouping."),
             cache, fetched.2)
          else
            let er := enrich_charities_with_every net selected cache
            (Except.ok { generic_code := generic_code, location := location,
                         ntee_codes := target_deciles, charities := er.1 },
             er.2, fetched.2)

/-- **C9.** An interest code that is empty after normalization, or absent from
the mapping table, is rejected with a 400 before any catalog query is issued
(the query log is empty, so the selection pipeline and the store are never
reached). -/
theorem recommend_rejects_bad_code (store : Query → List CharityRow)
    (net : String → Option EveryResp) (cache : Cache) (payload : SurveyRequest)
    (h : pyUpper (pyStrip payload.generic_code) = "" ∨
      lookupGeneric (pyUpper (pyStrip payload.generic_code)) = none) :
    ∃ msg, recommend_charities store net cache payload
        = (Except.error (400, msg), cache, []) := by
  unfold recommend_charities
  rcases h with h | h
  · exact ⟨"generic_code is required.", by simp [h]⟩
  · by_cases he : pyUpper (pyStrip payload.generic_code) = ""
    · exact ⟨"generic_code is required.", by simp [he]⟩
    · exact ⟨"Unknown generic code: " ++ pyUpper (pyStrip payload.generic_code),
        by simp [he, h]⟩

/-- Witness for C9 at the empty interest code and at an unknown one. -/
theorem recommend_rejects_bad_code_witness :
    (∃ msg, recommend_charities (fun _ => []) (fun _ => none) [] ⟨"", "CA"⟩
        = (Except.error (400, msg), [], [])) ∧
    (∃ msg, recommend_charities (fun _ => []) (fun _ => none) [] ⟨"zz", ""⟩
        = (Except.error (400, msg), [], [])) :=
  ⟨recommend_rejects_bad_code (fun _ => []) (fun _ => none) [] ⟨"", "CA"⟩
     (Or.inl (by decide)),
   recommend_rejects_bad_code (fun _ => []) (fun _ => none) [] ⟨"zz", ""⟩
     (Or.inr (by decide))⟩

/-! ## The `/featured` endpoint (`app.get_featured_charities`) -/

structure PyDate where
  year : Nat
  month : Nat
  day : Nat

/-- `int(today.strftime("%Y%m%d"))`. -/
def dateSeed (d : PyDate) : Nat := d.year * 10000 + d.month * 100 + d.day

def pad2 (n : Nat) : String := if n < 10 then "0" ++ toString n else toString n

/-- `today.isoformat()`. -/
def isoDate (d : PyDate) : String :=
  toString d.year ++ "-" ++ pad2 d.month ++ "-" ++ pad2 d.day

/-- `list(dict.fromkeys(xs))`: deduplicate keeping first occurrences. -/
def dedupFirst (l : List String) : List String :=
  l.foldl (fun acc x => if x ∈ acc then acc else acc ++ [x]) []

/-- `app.get_daily_featured_pool`: fetch a broad pool over the featured sample
codes — with `seed=None`, so the store-side `ORDER BY RANDOM()` order is kept —
and normalize the rows. -/
def get_daily_featured_pool (store : Query → List CharityRow) (pool_size : Int) :
    List Charity × List Query :=
  let sample_generic_codes := ["D0", "B0", "E0", "P0", "C0", "N0"]
  let decile_candidates :=
    sample_generic_codes.flatMap (fun code => (lookupGeneric code).getD [])
  let deciles := dedupFirst decile_candidates
  if deciles = [] then ([], [])
  else
    let fetched := fetch_random_pool_for_deciles store deciles none pool_size none
    (normalizeRows fetched.1, fetched.2)

structure FeaturedResponse where
  date : String
  count : Nat
  charities : List Charity
deriving DecidableEq

/-- `app.get_featured_charities` for a given calendar date: derive the seed
from the date, fetch the (unseeded) pool, enrich, keep charities with a
website, shuffle the filtered copy with the date seed, and take 6. -/
def get_featured_charities (store : Query → List CharityRow)
    (net : String → Option EveryResp) (cache : Cache) (today : PyDate) :
    FeaturedResponse × Cache :=
  let seed := dateSeed today
  let pool := (get_daily_featured_pool store 200).1
  if pool = [] then ({ date := isoDate today, count := 0, charities := [] }, cache)
  else
    let er := enrich_charities_with_every net pool cache
    let with_website := er.1.filter (fun c => pyTruthy c.websiteUrl)
    let featured := (pyShuffle seed with_website).take 6
    ({ date := isoDate today, count := featured.length, charities := featured }, er.2)

theorem get_featured_eq (store : Query → List CharityRow)
    (net : String → Option EveryResp) (cache : Cache) (today : PyDate)
    (hne : (get_daily_featured_pool store 200).1 ≠ []) :
    get_featured_charities store net cache today
      = ({ date := isoDate today,
           count := ((pyShuffle (dateSeed today)
             (((enrich_charities_with_every net (get_daily_featured_pool store 200).1
                 cache).1).filter (fun c => pyTruthy c.websiteUrl))).take 6).length,
           charities := (pyShuffle (dateSeed today)
             (((enrich_charities_with_every net (get_daily_featured_pool store 200).1
                 cache).1).filter (fun c => pyTruthy c.websiteUrl))).take 6 },
         (enrich_charities_with_every net (get_daily_featured_pool store 200).1
             cache).2) := by
  unfold get_featured_charities
  rw [if_neg hne]

def c3Row1 : CharityRow :=
  { ein := "11", name := "Alpha", city := none, state := none,
    ntee_code := "D20", ntee_major := "D" }

def c3Row2 : CharityRow :=
  { ein := "22", name := "Beta", city := none, state := none,
    ntee_code := "D20", ntee_major := "D" }

def c3Store1 : Query → List CharityRow := fun _ => [c3Row1, c3Row2]

def c3Store2 : Query → List CharityRow := fun _ => [c3Row2, c3Row1]

def c3Detail (e : String) : Detail :=
  { profileUrl := none, profile := none, url := none,
    websiteUrl := some ("https://w.example/" ++ e), website := none,
    description := none, mission := none, location := none, locationName := none,
    nteeCode := none }

def c3Net : String → Option EveryResp :=
  fun e => some { status := 200, body := some (some (c3Detail e)) }

def c3Date : PyDate := ⟨2025, 10, 12⟩

def c3C1 : Charity :=
  ⟨some "Alpha", some "11", none, none, some "D20", none, none⟩

def c3C2 : Charity :=
  ⟨some "Beta", some "22", none, none, some "D20", none, none⟩

def c3C1e : Charity :=
  ⟨some "Alpha", some "11", none, some "https://w.example/11", some "D20", none, none⟩

def c3C2e : Charity :=
  ⟨some "Beta", some "22", none, some "https://w.example/22", some "D20", none, none⟩

def c3Cache1 : Cache := [("11", some (c3Detail "11")), ("22", some (c3Detail "22"))]

theorem c3_pool1 : (get_daily_featured_pool c3Store1 200).1 = [c3C1, c3C2] := by decide

theorem c3_pool2 : (get_daily_featured_pool c3Store2 200).1 = [c3C2, c3C1] := by decide

theorem c3_enrich1 :
    enrich_charities_with_every c3Net [c3C1, c3C2] [] = ([c3C1e, c3C2e], c3Cache1) := by
  decide

theorem c3_enrich2 :
    enrich_charities_with_every c3Net [c3C2, c3C1] c3Cache1
      = ([c3C2e, c3C1e], c3Cache1) := by decide

set_option maxRecDepth 8000 in
/-- **C3 (code bug).** Two calls of the featured operation on the same
calendar date (2025-10-12, derived seed 20251012) return different charity
lists when the unseeded `ORDER BY RANDOM()` pool query returns the same two
rows in different orders — which is exactly what an unseeded store-side
shuffle may do across two calls.  The second call starts from the cache state
the first call produced, as it would in one process. -/
theorem featured_same_date_differs :
    ((get_featured_charities c3Store1 c3Net [] c3Date).1).charities
      ≠ ((get_featured_charities c3Store2 c3Net
            (get_featured_charities c3Store1 c3Net [] c3Date).2 c3Date).1).charities := by
  have hne1 : (get_daily_featured_pool c3Store1 200).1 ≠ [] := by
    rw [c3_pool1]; simp
  have hne2 : (get_daily_featured_pool c3Store2 200).1 ≠ [] := by
    rw [c3_pool2]; simp
  rw [get_featured_eq c3Store1 c3Net [] c3Date hne1, c3_pool1, c3_enrich1]
  dsimp only
  rw [get_featured_eq c3Store2 c3Net c3Cache1 c3Date hne2, c3_pool2, c3_enrich2]
  dsimp only
  rw [show dateSeed c3Date = 20251012 from by decide]
  rw [show List.filter (fun c => pyTruthy c.websiteUrl) [c3C1e, c3C2e] = [c3C1e, c3C2e]
        from by decide,
      show List.filter (fun c => pyTruthy c.websiteUrl) [c3C2e, c3C1e] = [c3C2e, c3C1e]
        from by decide,
      pyShuffle_20251012_pair c3C1e c3C2e, pyShuffle_20251012_pair c3C2e c3C1e]
  decide

deriving instance DecidableEq for Except

def c7Store : Query → List CharityRow :=
  fun _ => [{ ein := "33", name := "Gamma", city := none, state := none,
              ntee_code := "D20", ntee_major := "D" }]

def c7Net : String → Option EveryResp :=
  fun _ => some { status := 200, body := some (some
    { profileUrl := none, profile := none, url := none, websiteUrl := none,
      website := none, description := none, mission := none, location := none,
      locationName := none, nteeCode := some "Z99" }) }

set_option maxRecDepth 8000 in
/-- **C7 (counterexample).** With a store honouring the query (one D20 row)
and an enrichment service that supplies category code "Z99", the recommend
operation for interest code "D0" succeeds and returns a charity whose category
code is "Z99", which is not in the mapped set: the claim fails "after
enrichment has been applied". -/
theorem recommend_enrichment_escapes_mapped_set :
    (recommend_charities c7Store c7Net [] ⟨"D0", ""⟩).1
      = Except.ok { generic_code := "D0", location := "",
                    ntee_codes := ["D20", "D40", "D60", "D61"],
                    charities := [⟨some "Gamma", some "33", none, none,
                                   some "Z99", none, none⟩] } ∧
    ¬ ("Z99" ∈ ["D20", "D40", "D60", "D61"]) := by
  constructor
  · decide
  · decide

/-- The nonprofit object a successful fetch would extract from the service's
response for a given identifier (none on any failure path). -/
def netNonprofit (net : String → Option EveryResp) (e : String) : Option Detail :=
  match net e with
  | none => none
  | some resp => if resp.status ≥ 400 then none else resp.body.getD none

/-- A detail record whose category code, when truthy, lies in `ds`. -/
def DetailOk (ds : List String) (d : Detail) : Prop :=
  ∀ v, d.nteeCode = some v → v ≠ "" → v ∈ ds

/-- Every successful detail stored in the cache is `DetailOk`. -/
def CacheOk (ds : List String) (cache : Cache) : Prop :=
  ∀ e dd, cacheGet cache e = some (some dd) → DetailOk ds dd

/-- Every nonprofit object the service can supply is `DetailOk`. -/
def NetOk (ds : List String) (net : String → Option EveryResp) : Prop :=
  ∀ e dd, netNonprofit net e = some dd → DetailOk ds dd

theorem cacheGet_set (cache : Cache) (e : String) (v : Option Detail) (x : String) :
    cacheGet (cacheSet cache e v) x = if x = e then some v else cacheGet cache x := by
  induction cache with
  | nil =>
    by_cases hx : x = e
    · simp [cacheSet, cacheGet, List.find?, hx]
    · have hx2 : ¬ e = x := fun h => hx h.symm
      simp [cacheSet, cacheGet, List.find?, hx, hx2]
  | cons p rest ih =>
    obtain ⟨k, w⟩ := p
    by_cases hk : k = e
    · subst hk
      by_cases hx : x = k
      · subst hx
        simp [cacheSet, cacheGet, List.find?]
      · have hx2 : ¬ k = x := fun h => hx h.symm
        simp [cacheSet, cacheGet, List.find?, hx, hx2]
    · by_cases hx : x = k
      · subst hx
        have hxe : ¬ x = e := hk
        simp [cacheSet, cacheGet, List.find?, hk, hxe]
      · have hx2 : ¬ k = x := fun h => hx h.symm
        have ihx := ih
        simp [cacheSet, cacheGet, List.find?, hk, hx, hx2] at ihx ⊢
        exact ihx

theorem fetch_every_ok {ds : List String} {net : String → Option EveryResp}
    {cache : Cache} (e : String) (hc : CacheOk ds cache) (hn : NetOk ds net) :
    (∀ dd, (fetch_every_nonprofit_detail net cache e).1 = some dd → DetailOk ds dd) ∧
    CacheOk ds (fetch_every_nonprofit_detail net cache e).2.1 := by
  unfold fetch_every_nonprofit_detail
  by_cases he : e = ""
  · rw [if_pos he]
    exact ⟨fun dd h => Option.noConfusion h, hc⟩
  · rw [if_neg he]
    cases hj : (cacheGet cache e).join with
    | some d =>
      have hcg : cacheGet cache e = some (some d) := by
        cases hcg : cacheGet cache e with
        | none => rw [hcg] at hj; simp [Option.join] at hj
        | some o =>
          rw [hcg] at hj
          cases o with
          | none => simp [Option.join] at hj
          | some d' =>
            simp [Option.join] at hj
            rw [hj]
      dsimp only
      refine ⟨fun dd h => ?_, hc⟩
      have hdd : d = dd := by injection h
      rw [← hdd]
      exact hc e d hcg
    | none =>
      have hinsneg : CacheOk ds (cacheSet cache e none) := by
        intro x dd hx
        rw [cacheGet_set] at hx
        by_cases hxe : x = e
        · rw [if_pos hxe] at hx
          exact Option.noConfusion (Option.some.inj hx)
        · rw [if_neg hxe] at hx; exact hc x dd hx
      cases hnet : net e with
      | none =>
        dsimp only
        exact ⟨fun dd h => Option.noConfusion h, hinsneg⟩
      | some resp =>
        dsimp only
        by_cases hst : resp.status ≥ 400
        · rw [if_pos hst]
          exact ⟨fun dd h => Option.noConfusion h, hinsneg⟩
        · rw [if_neg hst]
          cases hb : resp.body with
          | none =>
            dsimp only
            exact ⟨fun dd h => Option.noConfusion h, hinsneg⟩
          | some nonprofit =>
            cases hnp : nonprofit with
            | none =>
              dsimp only
              exact ⟨fun dd h => Option.noConfusion h, hinsneg⟩
            | some d =>
              dsimp only
              have hok : DetailOk ds d := by
                apply hn e
                unfold netNonprofit
                rw [hnet]
                dsimp only
                rw [if_neg hst, hb, hnp]
                rfl
              refine ⟨fun dd h => ?_, ?_⟩
              · have hdd : d = dd := by injection h
                rw [← hdd]; exact hok
              · intro x dd hx
                rw [cacheGet_set] at hx
                by_cases hxe : x = e
                · rw [if_pos hxe] at hx
                  simp at hx
                  rw [← hx]; exact hok
                · rw [if_neg hxe] at hx; exact hc x dd hx

theorem enrich_ok {ds : List String} {net : String → Option EveryResp}
    (hn : NetOk ds net) :
    ∀ (cs : List Charity) (cache : Cache), CacheOk ds cache →
      (∀ c ∈ cs, ∃ d ∈ ds, c.nteeCode = some d ∧ d ≠ "") →
      (∀ c' ∈ (enrich_charities_with_every net cs cache).1,
        ∃ d ∈ ds, c'.nteeCode = some d) ∧
      CacheOk ds (enrich_charities_with_every net cs cache).2 := by
  intro cs
  induction cs with
  | nil =>
    intro cache hc _
    exact ⟨fun c' h => absurd h (List.not_mem_nil c'), hc⟩
  | cons c rest ih =>
    intro cache hc hcs
    obtain ⟨d0, hd0, hcn, hne0⟩ := hcs c (List.mem_cons_self c rest)
    have hone : (∃ d ∈ ds, (enrichCharity net cache c).1.nteeCode = some d) ∧
        CacheOk ds (enrichCharity net cache c).2 := by
      unfold enrichCharity
      by_cases hein : pyTruthy c.ein
      · rw [if_pos hein]
        obtain ⟨hval, hcok⟩ := fetch_every_ok (c.ein.getD "") hc hn
        dsimp only
        cases hf : (fetch_every_nonprofit_detail net cache (c.ein.getD "")).1 with
        | none => exact ⟨⟨d0, hd0, hcn⟩, hcok⟩
        | some dd =>
          dsimp only
          have hdok : DetailOk ds dd := hval dd hf

          refine ⟨?_, hcok⟩
          have hmc := (applyDetail_merge_contract dd c).2.2.2.2.1
          by_cases ht : pyTruthy dd.nteeCode
          · rw [if_pos ht] at hmc
            match hcc : dd.nteeCode with
            | none => rw [hcc] at ht; simp [pyTruthy] at ht
            | some v =>
              have hv : v ≠ "" := by
                rw [hcc] at ht
                simpa [pyTruthy] using ht
              refine ⟨v, hdok v hcc hv, ?_⟩
              rw [hmc, hcc]
          · rw [if_neg ht] at hmc
            exact ⟨d0, hd0, by rw [hmc, hcn]⟩
      · rw [if_neg hein]
        exact ⟨⟨d0, hd0, hcn⟩, hc⟩
    have hrest : ∀ x ∈ rest, ∃ d ∈ ds, x.nteeCode = some d ∧ d ≠ "" :=
      fun x hx => hcs x (List.mem_cons_of_mem c hx)
    obtain ⟨h1, h2⟩ := hone
    obtain ⟨hr1, hr2⟩ := ih (enrichCharity net cache c).2 h2 hrest
    have hred : enrich_charities_with_every net (c :: rest) cache
        = ((enrichCharity net cache c).1
            :: (enrich_charities_with_every net rest (enrichCharity net cache c).2).1,
           (enrich_charities_with_every net rest (enrichCharity net cache c).2).2) := rfl
    rw [hred]
    refine ⟨?_, hr2⟩
    intro c' hc'
    rcases List.mem_cons.mp hc' with h | h
    · rw [h]; exact h1
    · exact hr1 c' h

theorem pyUpper_ne_empty {s : String} (h : s ≠ "") : pyUpper s ≠ "" := by
  intro hc
  apply h
  have hd : s.data.map Char.toUpper = [] := congrArg String.data hc
  rw [List.map_eq_nil_iff] at hd
  obtain ⟨data⟩ := s
  simp at hd
  subst hd
  rfl

theorem normalize_deciles_ne_empty {l : List String} :
    ∀ x ∈ normalize_deciles l, x ≠ "" := by
  intro x hx
  unfold normalize_deciles at hx
  rw [List.mem_map] at hx
  obtain ⟨d, hd, rfl⟩ := hx
  rw [List.mem_filter] at hd
  apply pyUpper_ne_empty
  simpa using hd.2

theorem mem_rowsToCharities {rows : List CharityRow} {row : CharityRow}
    (h : row ∈ rowsToCharities rows) : ∃ r0 ∈ rows, row.ntee_code = r0.ntee_code := by
  unfold rowsToCharities at h
  rw [List.mem_map] at h
  obtain ⟨r0, hr0, rfl⟩ := h
  exact ⟨r0, hr0, rfl⟩

theorem fetch_by_deciles_codes {store : Query → List CharityRow}
    {deciles : List String} {state : Option String} {limit : Int}
    (hstore : ∀ q, ∀ row ∈ store q, row.ntee_code ∈ q.deciles) :
    ∀ row ∈ (fetch_by_deciles store deciles state limit).1,
      row.ntee_code ∈ normalize_deciles deciles := by
  intro row hrow
  unfold fetch_by_deciles at hrow
  by_cases hcl : normalize_deciles deciles = []
  · rw [if_pos hcl] at hrow
    cases hrow
  · rw [if_neg hcl] at hrow
    cases hst : catalog_normalize_state state with
    | some st =>
      rw [hst] at hrow
      dsimp only at hrow
      by_cases hne : store ⟨normalize_deciles deciles, some st, limit⟩ ≠ []
      · rw [if_pos hne] at hrow
        dsimp only at hrow
        obtain ⟨r0, hr0, heq⟩ := mem_rowsToCharities hrow
        rw [heq]
        exact hstore _ r0 hr0
      · rw [if_neg hne] at hrow
        dsimp only at hrow
        obtain ⟨r0, hr0, heq⟩ := mem_rowsToCharities hrow
        rw [heq]
        exact hstore _ r0 hr0
    | none =>
      rw [hst] at hrow
      dsimp only at hrow
      obtain ⟨r0, hr0, heq⟩ := mem_rowsToCharities hrow
      rw [heq]
      exact hstore _ r0 hr0

theorem fetch_random_pool_none_sub {store : Query → List CharityRow}
    {deciles : List String} {state : Option String} {pool_size : Int} :
    ∀ row ∈ (fetch_random_pool_for_deciles store deciles state pool_size none).1,
      row ∈ (fetch_by_deciles store deciles state
        (max (pool_size * 3) pool_size)).1 := by
  intro row h
  unfold fetch_random_pool_for_deciles at h
  by_cases hp : pool_size ≤ 0
  · rw [if_pos hp] at h
    cases h
  · rw [if_neg hp] at h
    dsimp only at h
    exact List.take_subset _ _ h

theorem insertGrouped_prop (P : String → Charity → Prop) :
    ∀ (g : List (String × List Charity)) (k : String) (c : Charity),
      (∀ p ∈ g, ∀ x ∈ p.2, P p.1 x) → P k c →
      ∀ p ∈ insertGrouped g k c, ∀ x ∈ p.2, P p.1 x := by
  intro g
  induction g with
  | nil =>
    intro k c _ hc p hp x hx
    simp [insertGrouped] at hp
    subst hp
    rw [List.mem_singleton.mp hx]
    exact hc
  | cons q rest ih =>
    intro k c hg hc p hp x hx
    obtain ⟨k', l⟩ := q
    unfold insertGrouped at hp
    by_cases hk : k' = k
    · rw [if_pos hk] at hp
      rcases List.mem_cons.mp hp with hp | hp
      · rw [hp] at hx
        dsimp only at hx
        rcases List.mem_append.mp hx with hx | hx
        · rw [hp]
          exact hg (k', l) (List.mem_cons_self _ _) x hx
        · rw [hp]
          dsimp only
          rw [List.mem_singleton.mp hx, hk]
          exact hc
      · exact hg p (List.mem_cons_of_mem _ hp) x hx
    · rw [if_neg hk] at hp
      rcases List.mem_cons.mp hp with hp | hp
      · rw [hp] at hx ⊢
        exact hg (k', l) (List.mem_cons_self _ _) x hx
      · exact ih k c (fun p' hp' => hg p' (List.mem_cons_of_mem _ hp')) hc p hp x hx

theorem group_prop (P : String → Charity → Prop) (rows : List CharityRow)
    (hrow : ∀ row ∈ rows, ∀ d, rowDecile row = some d →
      P d (normalizeRowCharity row d)) :
    ∀ p ∈ group_charities_by_decile rows, ∀ x ∈ p.2, P p.1 x := by
  unfold group_charities_by_decile
  suffices h : ∀ (g : List (String × List Charity)),
      (∀ p ∈ g, ∀ x ∈ p.2, P p.1 x) →
      (∀ row ∈ rows, ∀ d, rowDecile row = some d →
        P d (normalizeRowCharity row d)) →
      ∀ p ∈ rows.foldl
        (fun g row =>
          match rowDecile row with
          | none => g
          | some d => insertGrouped g d (normalizeRowCharity row d)) g,
        ∀ x ∈ p.2, P p.1 x by
    exact h [] (by simp) hrow
  clear hrow
  induction rows with
  | nil =>
    intro g hg _
    simpa using hg
  | cons row rest ih =>
    intro g hg hrow
    rw [List.foldl_cons]
    cases hd : rowDecile row with
    | none =>
      dsimp only
      exact ih g hg (fun r hr => hrow r (List.mem_cons_of_mem _ hr))
    | some d =>
      dsimp only
      apply ih
      · exact insertGrouped_prop P g d (normalizeRowCharity row d) hg
          (hrow row (List.mem_cons_self _ _) d hd)
      · exact fun r hr => hrow r (List.mem_cons_of_mem _ hr)

/-- **C7 (amended).** Every charity entry of a successful recommend response
carries a category code from the mapped set, PROVIDED every detail the
enrichment source (or the pre-existing cache) can supply has a truthy category
code only from that set.  (Without that proviso the claim fails:
`recommend_enrichment_escapes_mapped_set`.) -/
theorem recommend_codes_in_mapped_set
    (store : Query → List CharityRow) (net : String → Option EveryResp)
    (cache : Cache) (payload : SurveyRequest) (ds : List String)
    (resp : CharityResponse)
    (hmap : lookupGeneric (pyUpper (pyStrip payload.generic_code)) = some ds)
    (hclean : normalize_deciles ds = ds)
    (hstore : ∀ q, ∀ row ∈ store q, row.ntee_code ∈ q.deciles)
    (hnet : NetOk ds net)
    (hcache : CacheOk ds cache)
    (hok : (recommend_charities store net cache payload).1 = Except.ok resp) :
    ∀ c ∈ resp.charities, ∃ d ∈ ds, c.nteeCode = some d := by
  unfold recommend_charities at hok
  dsimp only at hok
  by_cases hgc : pyUpper (pyStrip payload.generic_code) = ""
  · rw [if_pos hgc] at hok
    exact Except.noConfusion hok
  · rw [if_neg hgc, hmap] at hok
    dsimp only at hok
    by_cases hds : ds = []
    · rw [if_pos hds] at hok
      exact Except.noConfusion hok
    · rw [if_neg hds] at hok
      generalize hstate :
        (if normalize_state (pyStrip payload.location) = "any" then none
         else some (normalize_state (pyStrip payload.location))) = stArg at hok
      by_cases hpool :
          (fetch_random_pool_for_deciles store ds stArg (15 * 4) none).1 = []
      · rw [if_pos hpool] at hok
        exact Except.noConfusion hok
      · rw [if_neg hpool] at hok
        by_cases hsel :
            round_robin_select
              (group_charities_by_decile
                (fetch_random_pool_for_deciles store ds stArg (15 * 4) none).1)
              MAX_CHARITIES = []
        · rw [if_pos hsel] at hok
          exact Except.noConfusion hok
        · rw [if_neg hsel] at hok
          dsimp only at hok
          have hresp := Except.ok.inj hok
          have hpoolcodes :
              ∀ row ∈ (fetch_random_pool_for_deciles store ds stArg (15 * 4) none).1,
                row.ntee_code ∈ ds := by
            intro row hr
            have := fetch_by_deciles_codes hstore row (fetch_random_pool_none_sub row hr)
            rw [hclean] at this
            exact this
          have hselprop :
              ∀ c ∈ round_robin_select
                  (group_charities_by_decile
                    (fetch_random_pool_for_deciles store ds stArg (15 * 4) none).1)
                  MAX_CHARITIES,
                ∃ d ∈ ds, c.nteeCode = some d ∧ d ≠ "" := by
            intro c hc
            obtain ⟨p, hp, hcp⟩ := round_robin_select_sources _ _ c hc
            have hgp := group_prop
              (fun d x => d ∈ ds ∧ x.nteeCode = some d ∧ d ≠ "")
              (fetch_random_pool_for_deciles store ds stArg (15 * 4) none).1
              ?_ p hp c hcp
            · exact ⟨p.1, hgp.1, hgp.2.1, hgp.2.2⟩
            · intro row hr d hd
              unfold rowDecile at hd
              by_cases hne : row.ntee_code ≠ ""
              · rw [if_pos hne] at hd
                have hdd := Option.some.inj hd
                subst hdd
                exact ⟨hpoolcodes row hr, rfl, hne⟩
              · rw [if_neg hne] at hd
                exact Option.noConfusion hd
          have henr := enrich_ok hnet
            (round_robin_select
              (group_charities_by_decile
                (fetch_random_pool_for_deciles store ds stArg (15 * 4) none).1)
              MAX_CHARITIES) cache hcache hselprop
          intro c hc
          apply henr.1 c
          rw [← hresp] at hc
          exact hc

def c7wRow : CharityRow :=
  { ein := "44", name := "Delta", city := none, state := none,
    ntee_code := "D20", ntee_major := "D" }

/-- A store for the C7 witness that honours the `WHERE ntee_code IN (...)`
clause of the issued query. -/
def c7wStore : Query → List CharityRow :=
  fun q => if "D20" ∈ q.deciles then [c7wRow] else []

def c7wDetail : Detail :=
  { profileUrl := none, profile := none, url := none, websiteUrl := none,
    website := none, description := none, mission := none, location := none,
    locationName := none, nteeCode := some "D40" }

def c7wNet : String → Option EveryResp :=
  fun _ => some { status := 200, body := some (some c7wDetail) }

def c7wResp : CharityResponse :=
  { generic_code := "D0", location := "",
    ntee_codes := ["D20", "D40", "D60", "D61"],
    charities := [⟨some "Delta", some "44", none, none, some "D40", none, none⟩] }

theorem c7wStore_honours_where :
    ∀ q, ∀ row ∈ c7wStore q, row.ntee_code ∈ q.deciles := by
  intro q row hr
  unfold c7wStore at hr
  by_cases h : "D20" ∈ q.deciles
  · rw [if_pos h] at hr
    rw [List.mem_singleton.mp hr]
    exact h
  · rw [if_neg h] at hr
    cases hr

theorem c7wNet_ok : NetOk ["D20", "D40", "D60", "D61"] c7wNet := by
  intro e dd h
  unfold netNonprofit c7wNet at h
  simp at h
  rw [← h]
  intro v hv _
  have : v = "D40" := by
    have := Option.some.inj hv
    rw [this]
  rw [this]
  decide

theorem cacheOk_nil (ds : List String) : CacheOk ds [] := by
  intro e dd h
  unfold cacheGet at h
  simp [List.find?] at h

set_option maxRecDepth 8000 in
/-- Witness for the amended C7 at a concrete store, service, and request. -/
theorem recommend_codes_in_mapped_set_witness :
    ∃ d ∈ ["D20", "D40", "D60", "D61"],
      (⟨some "Delta", some "44", none, none, some "D40", none, none⟩ : Charity).nteeCode
        = some d :=
  recommend_codes_in_mapped_set c7wStore c7wNet [] ⟨"D0", ""⟩
    ["D20", "D40", "D60", "D61"] c7wResp (by decide) (by decide)
    c7wStore_honours_where c7wNet_ok (cacheOk_nil _) (by decide)
    ⟨some "Delta", some "44", none, none, some "D40", none, none⟩ (by decide)
